import Mathlib

/-!
# Eurocom MX5-R2 keyboard LED driver: embedding and verified properties

Shallow embedding of `module/eurocom-mx5r2-keyleds.c`.

* C globals (`keyboard_mode`, `keyboard_colors`, `keyboard_brightness`) are the
  fields of `Driver`; every function of the driver is a state transformer.
* The calls made to the firmware (`wmi_evaluate_method`) are recorded, in order,
  in the field `wmi_log`; the firmware itself is an arbitrary oracle.
* `unsigned char` parameters are natural numbers reduced `% 256` on entry,
  `unsigned int` values are reduced `% 2 ^ 32`.
* Text written to a sysfs attribute is a list of byte values; the end of the
  list is the terminating NUL byte.
-/

namespace Mx5r2

/-! ## Constants -/

/-- The wmi command for controlling the keyboard LEDs (`#define SET_KB_LED 0x67`). -/
def SET_KB_LED : Nat := 0x67

/-- Region `enum keyboard_regions`: left. -/
def KB_REGION_LEFT : Nat := 0
/-- Region `enum keyboard_regions`: center. -/
def KB_REGION_CENTER : Nat := 1
/-- Region `enum keyboard_regions`: right. -/
def KB_REGION_RIGHT : Nat := 2
/-- Region `enum keyboard_regions`: first invalid value. -/
def KB_REGION_UNKNOWN : Nat := 3

/-- Number of firmware modes (`#define NUMBER_OF_KEYBOARD_MODES 8`). -/
def NUMBER_OF_KEYBOARD_MODES : Nat := 8

/-- Mode enumeration value 0. -/
def KB_MODE_RANDOM_COLOR : Nat := 0
/-- Mode enumeration value 1. -/
def KB_MODE_CUSTOM : Nat := 1
/-- Mode enumeration value 2. -/
def KB_MODE_BREATHE : Nat := 2
/-- Mode enumeration value 3. -/
def KB_MODE_CYCLE : Nat := 3
/-- Mode enumeration value 4. -/
def KB_MODE_WAVE : Nat := 4
/-- Mode enumeration value 5. -/
def KB_MODE_DANCE : Nat := 5
/-- Mode enumeration value 6. -/
def KB_MODE_TEMPO : Nat := 6
/-- Mode enumeration value 7. -/
def KB_MODE_FLASH : Nat := 7

/-- Brightness maximum (`#define KB_BRIGHTNESS_MAX 255`). -/
def KB_BRIGHTNESS_MAX : Nat := 255
/-- Brightness default (`#define KB_BRIGHTNESS_DEFAULT KB_BRIGHTNESS_MAX`). -/
def KB_BRIGHTNESS_DEFAULT : Nat := KB_BRIGHTNESS_MAX

/-- Byte values of an ASCII string literal. -/
def ascii (t : String) : List Nat := t.data.map Char.toNat

/-- The table `keyboard_mode_description[]`, indexed by mode. -/
def keyboard_mode_description : List String :=
  ["random", "custom", "breathe", "cycle", "wave", "dance", "tempo", "flash"]

/-! ## State -/

/-- The anonymous struct behind the global `keyboard_colors`. -/
structure KeyboardColors where
  left : Nat
  center : Nat
  right : Nat
deriving DecidableEq, Repr

/-- The globals of the module, together with the ordered record of the calls
`(method_id, arg)` handed to `wmi_evaluate_method`. -/
structure Driver where
  keyboard_mode : Nat
  keyboard_colors : KeyboardColors
  keyboard_brightness : Nat
  wmi_log : List (Nat × Nat)
deriving DecidableEq, Repr

/-- The values the globals are compiled with: mode custom, all regions
`0x0000FF`, brightness `KB_BRIGHTNESS_DEFAULT`; nothing sent yet. -/
def compiled_defaults : Driver :=
  { keyboard_mode := KB_MODE_CUSTOM
    keyboard_colors := { left := 0x0000FF, center := 0x0000FF, right := 0x0000FF }
    keyboard_brightness := KB_BRIGHTNESS_DEFAULT
    wmi_log := [] }

/-! ## Firmware channel -/

/-- What `wmi_evaluate_method` hands back: the `acpi_status` and the returned
object (its type tag and, for an integer object, its value). -/
structure AcpiReply where
  status : Nat
  obj_type : Nat
  obj_value : Nat
deriving DecidableEq, Repr

/-- The platform firmware: its reply may depend on all earlier calls, on the
method id and on the argument. -/
abbrev Firmware := List (Nat × Nat) → Nat → Nat → AcpiReply

/-- Object type tag `ACPI_TYPE_INTEGER`. -/
def ACPI_TYPE_INTEGER : Nat := 1

/-- The predicate `ACPI_FAILURE(status)`: any status other than `AE_OK = 0`. -/
def ACPI_FAILURE (status : Nat) : Bool := status != 0

/-- Function `wmi_evaluate_wmbb_method(method_id, arg, retval)`.  The flag `retval`
says whether the pointer is non-NULL.  Result: the return code (`0`, or `-5` for
`-EIO`), the value written through `retval` if any, and the driver with the
call appended to `wmi_log`. -/
def wmi_evaluate_wmbb_method (fw : Firmware) (method_id arg : Nat) (retval : Bool)
    (s : Driver) : (Int × Option Nat) × Driver :=
  let method_id := method_id % 2 ^ 32
  let arg := arg % 2 ^ 32
  let reply := fw s.wmi_log method_id arg
  let s1 := { s with wmi_log := s.wmi_log ++ [(method_id, arg)] }
  if ACPI_FAILURE reply.status then
    ((-5, none), s1)
  else
    let tmp := if reply.obj_type = ACPI_TYPE_INTEGER then reply.obj_value % 2 ^ 32 else 0
    ((0, if retval then some tmp else none), s1)

/-! ## Colors -/

/-- Function `set_region_color(keyboard_region, red, green, blue)`; the four
parameters are `unsigned char`. -/
def set_region_color (fw : Firmware) (keyboard_region red green blue : Nat)
    (s : Driver) : Driver :=
  let keyboard_region := keyboard_region % 256
  let red := red % 256
  let green := green % 256
  let blue := blue % 256
  let cmd := 0xF0000000
  if keyboard_region ≥ KB_REGION_UNKNOWN then s
  else
    let cmd := (cmd ||| (keyboard_region <<< 24)) % 2 ^ 32
    let cmd := (cmd ||| (blue <<< 16)) % 2 ^ 32
    let cmd := (cmd ||| (red <<< 8)) % 2 ^ 32
    let cmd := (cmd ||| (green <<< 0)) % 2 ^ 32
    let color := (((red <<< 16) ||| (green <<< 8)) ||| (blue <<< 0)) % 2 ^ 32
    let s1 : Driver :=
      if keyboard_region = KB_REGION_LEFT then
        { s with keyboard_colors := { s.keyboard_colors with left := color } }
      else if keyboard_region = KB_REGION_CENTER then
        { s with keyboard_colors := { s.keyboard_colors with center := color } }
      else if keyboard_region = KB_REGION_RIGHT then
        { s with keyboard_colors := { s.keyboard_colors with right := color } }
      else s
    let s2 : Driver := { s1 with keyboard_mode := KB_MODE_CUSTOM }
    (wmi_evaluate_wmbb_method fw SET_KB_LED cmd false s2).2

/-- Function `reset_custom_colors()`: three calls of `set_region_color`, each
argument read from the globals right before its call. -/
def reset_custom_colors (fw : Firmware) (s : Driver) : Driver :=
  let s1 := set_region_color fw KB_REGION_LEFT (s.keyboard_colors.left >>> 16)
    ((s.keyboard_colors.left >>> 8) &&& 0xFF) (s.keyboard_colors.left &&& 0xFF) s
  let s2 := set_region_color fw KB_REGION_CENTER (s1.keyboard_colors.center >>> 16)
    ((s1.keyboard_colors.center >>> 8) &&& 0xFF) (s1.keyboard_colors.center &&& 0xFF) s1
  set_region_color fw KB_REGION_RIGHT (s2.keyboard_colors.right >>> 16)
    ((s2.keyboard_colors.right >>> 8) &&& 0xFF) (s2.keyboard_colors.right &&& 0xFF) s2

/-- The three values a region getter prints for a stored color `c`:
`c >> 16`, `(c >> 8) & 0xFF`, `c & 0xFF`. -/
def region_channels (c : Nat) : Nat × Nat × Nat :=
  (c >>> 16, (c >>> 8) &&& 0xFF, c &&& 0xFF)

/-- Conversion `%d` of `sprintf`, applied to a 32-bit value. -/
def fmt_d (v : Nat) : String :=
  if v % 2 ^ 32 < 2 ^ 31 then toString (v % 2 ^ 32)
  else "-" ++ toString (2 ^ 32 - v % 2 ^ 32)

/-- The text `sprintf(buf, "%d %d %d\n", a, b, c)` produces. -/
def sprintf_ddd (t : Nat × Nat × Nat) : String :=
  fmt_d t.1 ++ " " ++ fmt_d t.2.1 ++ " " ++ fmt_d t.2.2 ++ "\n"

/-- Function `get_region_color_left`. -/
def get_region_color_left (s : Driver) : String :=
  sprintf_ddd (region_channels s.keyboard_colors.left)

/-- Function `get_region_color_center`. -/
def get_region_color_center (s : Driver) : String :=
  sprintf_ddd (region_channels s.keyboard_colors.center)

/-- Function `get_region_color_right`. -/
def get_region_color_right (s : Driver) : String :=
  sprintf_ddd (region_channels s.keyboard_colors.right)

/-! ## Brightness -/

/-- The kernel macro `clamp_t(unsigned int, val, lo, hi)`, that is
`min_t(unsigned int, max_t(unsigned int, val, lo), hi)`. -/
def clamp_t_uint (val lo hi : Nat) : Nat :=
  min (max (val % 2 ^ 32) (lo % 2 ^ 32)) (hi % 2 ^ 32)

/-- Function `set_keyboard_brightness(brightness)`; the parameter is `unsigned char`. -/
def set_keyboard_brightness (fw : Firmware) (brightness : Nat) (s : Driver) : Driver :=
  let brightness := brightness % 256
  let brightness := (clamp_t_uint brightness 0 255) % 256
  let s1 : Driver := { s with keyboard_brightness := brightness }
  (wmi_evaluate_wmbb_method fw SET_KB_LED ((0xF4000000 ||| brightness) % 2 ^ 32) false s1).2

/-- The text `sprintf(buf, "%d\n", v)` produces. -/
def sprintf_d (v : Nat) : String := fmt_d v ++ "\n"

/-- Function `get_brightness`. -/
def get_brightness (s : Driver) : String := sprintf_d s.keyboard_brightness

/-! ## Modes -/

/-- The table `cmds[]` of `set_keyboard_mode`, laid out by index
(`KB_MODE_RANDOM_COLOR = 0`, ..., `KB_MODE_FLASH = 7`). -/
def cmds : List Nat :=
  [0x70000000, 0, 0x1002a000, 0x33010000, 0xB0000000, 0x80000000, 0x90000000, 0xA0000000]

/-- Function `set_keyboard_mode(mode)`; the parameter is `unsigned char`. -/
def set_keyboard_mode (fw : Firmware) (mode : Nat) (s : Driver) : Driver :=
  let mode := mode % 256
  if mode ≥ NUMBER_OF_KEYBOARD_MODES then s
  else
    let s1 := (wmi_evaluate_wmbb_method fw SET_KB_LED 0x10000000 false s).2
    if mode = KB_MODE_CUSTOM then
      let s2 := reset_custom_colors fw s1
      set_keyboard_brightness fw s2.keyboard_brightness s2
    else
      let s2 : Driver := { s1 with keyboard_mode := mode }
      (wmi_evaluate_wmbb_method fw SET_KB_LED (cmds.getD mode 0) false s2).2

/-- Function `get_mode_integer`. -/
def get_mode_integer (s : Driver) : String := sprintf_d s.keyboard_mode

/-- Function `get_mode_desc`: nothing is printed for a mode out of range. -/
def get_mode_desc (s : Driver) : String :=
  if s.keyboard_mode ≥ NUMBER_OF_KEYBOARD_MODES then ""
  else keyboard_mode_description.getD s.keyboard_mode "" ++ "\n"

/-! ## Kernel string helpers used by the attribute handlers -/

/-- Kernel `isspace` on a byte: tab to carriage return, blank, and `0xA0`. -/
def isspace (c : Nat) : Bool := (9 ≤ c && c ≤ 13) || c == 32 || c == 160

/-- Kernel `isdigit` on a byte. -/
def isdigit (c : Nat) : Bool := 48 ≤ c && c ≤ 57

/-- Kernel `skip_spaces`. -/
def skip_spaces : List Nat → List Nat
  | [] => []
  | c :: cs => if isspace c then skip_spaces cs else c :: cs

/-- Digit loop of the kernel integer reader in base 10: the accumulated value
and the unread rest of the text. -/
def parse_digits (acc : Nat) : List Nat → Nat × List Nat
  | [] => (acc, [])
  | c :: cs => if isdigit c then parse_digits (acc * 10 + (c - 48)) cs else (acc, c :: cs)

/-- Kernel `simple_strtol` in base 10: an optional `-`, then digits.  The
mathematical value is returned; every later use reduces it modulo a power of
two that divides `2 ^ 64`, so the 64-bit wrap of the kernel is not visible. -/
def simple_strtol (str : List Nat) : Int × List Nat :=
  match str with
  | 45 :: cs => (-((parse_digits 0 cs).1 : Int), (parse_digits 0 cs).2)
  | cs => (((parse_digits 0 cs).1 : Int), (parse_digits 0 cs).2)

/-- Kernel `sscanf` for the formats `"%d"` (`n = 1`) and `"%d %d %d"` (`n = 3`):
the values assigned in order, each as the 32-bit pattern left in the
`unsigned int` variable; the number of assignments is the length of the list.
A conversion stops the scan when, after white space, the text does not start
with a digit or with `-` followed by a digit. -/
def vsscanf_d : Nat → List Nat → List Nat
  | 0, _ => []
  | n + 1, str =>
    let str := skip_spaces str
    let digit := match str with
      | 45 :: d :: _ => d
      | 45 :: [] => 0
      | c :: _ => c
      | [] => 0
    if isdigit digit then
      (((simple_strtol str).1 % 2 ^ 32).toNat) :: vsscanf_d n (simple_strtol str).2
    else []

/-- Kernel `strncmp(cs, ct, count)` on NUL-terminated byte strings; the end of
a list is its NUL byte. -/
def strncmp : List Nat → List Nat → Nat → Int
  | _, _, 0 => 0
  | cs, ct, count + 1 =>
    let c1 := cs.headD 0
    let c2 := ct.headD 0
    if c1 ≠ c2 then (if c1 < c2 then -1 else 1)
    else if c1 = 0 then 0
    else strncmp cs.tail ct.tail count

/-! ## Attribute store handlers

Each handler returns the number of bytes consumed; that number is not part of
the driver state and is left out. -/

/-- Function `set_region_color_left(buf, size)`. -/
def set_region_color_left (fw : Firmware) (buf : List Nat) (s : Driver) : Driver :=
  let vals := vsscanf_d 3 buf
  let red := vals.getD 0 0
  let green := vals.getD 1 0
  let blue := vals.getD 2 0
  let i := vals.length
  if i = 3 then
    let s1 := if s.keyboard_mode ≠ KB_MODE_CUSTOM then reset_custom_colors fw s else s
    set_region_color fw KB_REGION_LEFT red green blue s1
  else s

/-- Function `set_region_color_center(buf, size)`. -/
def set_region_color_center (fw : Firmware) (buf : List Nat) (s : Driver) : Driver :=
  let vals := vsscanf_d 3 buf
  let red := vals.getD 0 0
  let green := vals.getD 1 0
  let blue := vals.getD 2 0
  let i := vals.length
  if i = 3 then
    let s1 := if s.keyboard_mode ≠ KB_MODE_CUSTOM then reset_custom_colors fw s else s
    set_region_color fw KB_REGION_CENTER red green blue s1
  else s

/-- Function `set_region_color_right(buf, size)`. -/
def set_region_color_right (fw : Firmware) (buf : List Nat) (s : Driver) : Driver :=
  let vals := vsscanf_d 3 buf
  let red := vals.getD 0 0
  let green := vals.getD 1 0
  let blue := vals.getD 2 0
  let i := vals.length
  if i = 3 then
    let s1 := if s.keyboard_mode ≠ KB_MODE_CUSTOM then reset_custom_colors fw s else s
    set_region_color fw KB_REGION_RIGHT red green blue s1
  else s

/-- Function `set_brightness(buf, size)`. -/
def set_brightness (fw : Firmware) (buf : List Nat) (s : Driver) : Driver :=
  let vals := vsscanf_d 1 buf
  let brightness := vals.getD 0 KB_BRIGHTNESS_DEFAULT
  let i := vals.length
  if i = 1 then set_keyboard_brightness fw brightness s else s

/-- Function `set_mode_integer(buf, size)`. -/
def set_mode_integer (fw : Firmware) (buf : List Nat) (s : Driver) : Driver :=
  let vals := vsscanf_d 1 buf
  let mode := vals.getD 0 KB_MODE_CUSTOM
  let i := vals.length
  if i = 1 then set_keyboard_mode fw mode s else s

/-- The loop of `set_mode_desc`, started at index `m` with the names from
index `m` on: the first name equal to the text under `strncmp` with the given
count is applied, and the loop is left. -/
def set_mode_desc_loop (fw : Firmware) (buf : List Nat) (count : Nat) :
    Nat → List String → Driver → Driver
  | _, [], s => s
  | m, name :: rest, s =>
    if strncmp (ascii name) buf count = 0 then set_keyboard_mode fw m s
    else set_mode_desc_loop fw buf count (m + 1) rest s

/-- Function `set_mode_desc(buf, size)`, with `size` the length of `buf`. -/
def set_mode_desc (fw : Firmware) (buf : List Nat) (s : Driver) : Driver :=
  let size := buf.length
  if size < 2 then s
  else set_mode_desc_loop fw buf (size - 1) 0 keyboard_mode_description s

/-! ## Module entry and reachable states -/

/-- Function `mx5r2_wmi_init()`.  The flag `wmi_has_guid` is the result of the
probe for the firmware interface, `bundle_err` the error of
`platform_create_bundle` if it fails.  Result: the return code and the driver. -/
def mx5r2_wmi_init (fw : Firmware) (wmi_has_guid : Bool) (bundle_err : Option Int)
    (s : Driver) : Int × Driver :=
  if !wmi_has_guid then (-19, s)
  else
    match bundle_err with
    | some e => (e, s)
    | none =>
      let s1 := set_region_color fw KB_REGION_LEFT 255 0 0 s
      let s2 := set_region_color fw KB_REGION_CENTER 0 255 0 s1
      let s3 := set_region_color fw KB_REGION_RIGHT 0 0 255 s2
      let s4 := set_keyboard_brightness fw 255 s3
      (0, s4)

/-- The six sysfs attributes declared with `DEVICE_ATTR`. -/
inductive Attr where
  | left
  | center
  | right
  | brightness
  | mode
  | modedesc
deriving DecidableEq, Repr

/-- A write of `buf` to one attribute: the store handler `DEVICE_ATTR` binds to it. -/
def dev_attr_store (fw : Firmware) (a : Attr) (buf : List Nat) (s : Driver) : Driver :=
  match a with
  | .left => set_region_color_left fw buf s
  | .center => set_region_color_center fw buf s
  | .right => set_region_color_right fw buf s
  | .brightness => set_brightness fw buf s
  | .mode => set_mode_integer fw buf s
  | .modedesc => set_mode_desc fw buf s

/-- States the driver can be in: the compiled-in globals, the state after a
run of `mx5r2_wmi_init`, and every state obtained from those by writes to the
attributes, with arbitrary text and an arbitrary firmware. -/
inductive Reachable : Driver → Prop where
  | boot : Reachable compiled_defaults
  | init (fw : Firmware) (g : Bool) (e : Option Int) (s : Driver) :
      Reachable s → Reachable (mx5r2_wmi_init fw g e s).2
  | store (fw : Firmware) (a : Attr) (buf : List Nat) (s : Driver) :
      Reachable s → Reachable (dev_attr_store fw a buf s)

/-- A firmware that accepts every call and answers the integer 0. -/
def fw_ok : Firmware := fun _ _ _ => { status := 0, obj_type := 1, obj_value := 0 }

/-- A firmware whose every call fails. -/
def fw_fail : Firmware := fun _ _ _ => { status := 1, obj_type := 0, obj_value := 0 }

/-! ## Specification-side definitions -/

/-- The Color-set opcode as the specification writes it:
`0xF0000000 | (region << 24) | (blue << 16) | (red << 8) | green`. -/
def spec_color_opcode (region red green blue : Nat) : Nat :=
  0xF0000000 ||| (region <<< 24) ||| (blue <<< 16) ||| (red <<< 8) ||| green

/-- The Brightness-set opcode as the specification writes it: `0xF4000000 | brightness`. -/
def spec_brightness_opcode (brightness : Nat) : Nat := 0xF4000000 ||| brightness

/-- The mode-reset opcode of the specification. -/
def spec_reset_opcode : Nat := 0x10000000

/-- The mode-select constants of the specification, by mode; Custom has none. -/
def spec_mode_opcode (mode : Nat) : Option Nat :=
  if mode = KB_MODE_RANDOM_COLOR then some 0x70000000
  else if mode = KB_MODE_BREATHE then some 0x1002a000
  else if mode = KB_MODE_CYCLE then some 0x33010000
  else if mode = KB_MODE_WAVE then some 0xB0000000
  else if mode = KB_MODE_DANCE then some 0x80000000
  else if mode = KB_MODE_TEMPO then some 0x90000000
  else if mode = KB_MODE_FLASH then some 0xA0000000
  else none

/-- The stored color of a region, by region index. -/
def region_color (s : Driver) (region : Nat) : Nat :=
  if region = KB_REGION_LEFT then s.keyboard_colors.left
  else if region = KB_REGION_CENTER then s.keyboard_colors.center
  else s.keyboard_colors.right

/-- The text read from the attribute of a region, by region index. -/
def get_region_color (s : Driver) (region : Nat) : String :=
  if region = KB_REGION_LEFT then get_region_color_left s
  else if region = KB_REGION_CENTER then get_region_color_center s
  else get_region_color_right s

/-- The store handler of the attribute of a region, by region index. -/
def set_region_color_attr (fw : Firmware) (region : Nat) (buf : List Nat) (s : Driver) :
    Driver :=
  if region = KB_REGION_LEFT then set_region_color_left fw buf s
  else if region = KB_REGION_CENTER then set_region_color_center fw buf s
  else set_region_color_right fw buf s

/-- Mathematical `clamp(v, lo, hi)` on integers. -/
def spec_clamp (v lo hi : Int) : Int := max lo (min v hi)

/-- The invariant of the stored colors: each fits in 24 bits. -/
def ColorsOk (s : Driver) : Prop :=
  s.keyboard_colors.left < 2 ^ 24 ∧ s.keyboard_colors.center < 2 ^ 24 ∧
    s.keyboard_colors.right < 2 ^ 24

/-- The colors after region `region` has been given the value `c`. -/
def with_region (k : KeyboardColors) (region c : Nat) : KeyboardColors :=
  if region = KB_REGION_LEFT then { k with left := c }
  else if region = KB_REGION_CENTER then { k with center := c }
  else { k with right := c }

/-- The Color-set opcode that re-sends the stored color `c` of a region. -/
def stored_color_opcode (region c : Nat) : Nat :=
  spec_color_opcode region (region_channels c).1 (region_channels c).2.1
    (region_channels c).2.2

/-- The invariant of the driver state: every stored color fits in 24 bits, the
stored brightness in 8 bits, and the stored mode is one of the eight modes. -/
def Inv (s : Driver) : Prop :=
  ColorsOk s ∧ s.keyboard_brightness < 256 ∧ s.keyboard_mode < NUMBER_OF_KEYBOARD_MODES

/-- The C string held in a buffer: the bytes before the first NUL byte. -/
def cstr (buf : List Nat) : List Nat := buf.takeWhile (fun c => c != 0)

/-- The comparison of the specification for textual mode selection: the name
and the input string agree on their first `size - 1` bytes, where `size` is the
length of the input, so that the last input byte is left out. -/
def spec_name_matches (name : String) (buf : List Nat) : Bool :=
  (ascii name).take (buf.length - 1) == (cstr buf).take (buf.length - 1)

/-- The mode the specification selects for an input text: the first mode in
enumeration order whose name matches, if any. -/
def spec_selected_mode (buf : List Nat) : Option Nat :=
  (List.range NUMBER_OF_KEYBOARD_MODES).find?
    (fun m => spec_name_matches (keyboard_mode_description.getD m "") buf)

/-- Textual mode selection as the specification words it: an input shorter
than two bytes is rejected; otherwise the selected mode, if any, is applied. -/
def spec_set_mode_desc (fw : Firmware) (buf : List Nat) (s : Driver) : Driver :=
  if buf.length < 2 then s
  else
    match spec_selected_mode buf with
    | some m => set_keyboard_mode fw m s
    | none => s

/-- The text starts, after white space, with a decimal integer: a digit, or `-`
followed by a digit. -/
def spec_starts_with_integer (buf : List Nat) : Bool :=
  match skip_spaces buf with
  | 45 :: d :: _ => isdigit d
  | 45 :: [] => false
  | c :: _ => isdigit c
  | [] => false

/-- The words of a text: its maximal runs of bytes that are not white space;
`cur` is the run being read. -/
def spec_words (cur : List Nat) : List Nat → List (List Nat)
  | [] => if cur = [] then [] else [cur]
  | c :: cs =>
    if isspace c then (if cur = [] then spec_words [] cs else cur :: spec_words [] cs)
    else spec_words (cur ++ [c]) cs

/-- A word is a decimal integer: digits only, at least one, after an optional `-`. -/
def spec_is_decimal (word : List Nat) : Bool :=
  match word with
  | 45 :: d :: ds => (d :: ds).all isdigit
  | ds => !ds.isEmpty && ds.all isdigit

/-- The text is exactly `n` decimal integers separated by white space. -/
def spec_exactly_integers (n : Nat) (buf : List Nat) : Bool :=
  (spec_words [] buf).length == n && (spec_words [] buf).all spec_is_decimal

/-- The text that follows a leading decimal integer: white space is dropped,
then an optional `-`, then one digit and every digit after it.  There is no
result when the text, after white space, does not start with a digit or with
`-` and a digit. -/
def spec_after_integer (buf : List Nat) : Option (List Nat) :=
  match buf.dropWhile isspace with
  | 45 :: d :: rest => if isdigit d then some (rest.dropWhile isdigit) else none
  | 45 :: [] => none
  | c :: rest => if isdigit c then some (rest.dropWhile isdigit) else none
  | [] => none

/-- The text starts with `n` decimal integers, each possibly preceded by white
space; nothing is required between two integers and nothing about the text
after the last one. -/
def spec_starts_with_integers : Nat → List Nat → Bool
  | 0, _ => true
  | n + 1, buf =>
    match spec_after_integer buf with
    | some rest => spec_starts_with_integers n rest
    | none => false

/-! ## Arithmetic of the packed values -/

theorem pack_eq (red green blue : Nat) (hg : green < 256) (hb : blue < 256) :
    ((red <<< 16) ||| (green <<< 8)) ||| blue = red * 65536 + green * 256 + blue := by
  have h1 : (green <<< 8) ||| blue = 2 ^ 8 * green + blue := by
    rw [Nat.shiftLeft_eq, Nat.mul_comm]
    exact (Nat.mul_add_lt_is_or (by omega) green).symm
  have h2 : 2 ^ 8 * green + blue < 2 ^ 16 := by omega
  rw [Nat.or_assoc, h1, Nat.shiftLeft_eq, Nat.mul_comm red, ← Nat.mul_add_lt_is_or h2 red]
  omega

theorem and_255 (x : Nat) : x &&& 255 = x % 256 :=
  Nat.and_pow_two_sub_one_eq_mod x 8

theorem or_mod32 (x y : Nat) (hx : x < 2 ^ 32) (hy : y < 2 ^ 32) :
    (x ||| y) % 2 ^ 32 = x ||| y :=
  Nat.mod_eq_of_lt (Nat.or_lt_two_pow hx hy)

theorem pack_lt (red green blue : Nat) (hr : red < 256) (hg : green < 256)
    (hb : blue < 256) : ((red <<< 16) ||| (green <<< 8)) ||| blue < 2 ^ 24 := by
  rw [pack_eq red green blue hg hb]; omega

theorem channels_pack (red green blue : Nat) (hg : green < 256) (hb : blue < 256) :
    region_channels (((red <<< 16) ||| (green <<< 8)) ||| blue) = (red, green, blue) := by
  unfold region_channels
  rw [pack_eq red green blue hg hb]
  simp only [and_255, Nat.shiftRight_eq_div_pow, Prod.mk.injEq]
  omega

theorem pack_channels (c : Nat) (hc : c < 2 ^ 24) :
    ((((c >>> 16) % 256) <<< 16) ||| ((((c >>> 8) &&& 255) % 256) <<< 8))
      ||| ((c &&& 255) % 256) = c := by
  rw [pack_eq _ _ _ (Nat.mod_lt _ (by omega)) (Nat.mod_lt _ (by omega))]
  simp only [and_255, Nat.shiftRight_eq_div_pow]
  omega

theorem color_opcode_lt (region red green blue : Nat) (hreg : region < 3)
    (hr : red < 256) (hg : green < 256) (hb : blue < 256) :
    spec_color_opcode region red green blue < 2 ^ 32 := by
  unfold spec_color_opcode
  refine Nat.or_lt_two_pow (Nat.or_lt_two_pow (Nat.or_lt_two_pow (Nat.or_lt_two_pow ?_ ?_) ?_) ?_) ?_
  · omega
  · rw [Nat.shiftLeft_eq]; omega
  · rw [Nat.shiftLeft_eq]; omega
  · rw [Nat.shiftLeft_eq]; omega
  · omega

/-! ## The setters in closed form -/

@[simp] theorem wmi_evaluate_wmbb_method_snd (fw : Firmware) (m a : Nat) (r : Bool)
    (s : Driver) :
    (wmi_evaluate_wmbb_method fw m a r s).2 =
      { s with wmi_log := s.wmi_log ++ [(m % 2 ^ 32, a % 2 ^ 32)] } := by
  unfold wmi_evaluate_wmbb_method
  dsimp only
  by_cases h : ACPI_FAILURE (fw s.wmi_log (m % 2 ^ 32) (a % 2 ^ 32)).status = true
  · rw [if_pos h]
  · rw [if_neg h]

theorem cmd_chain (region red green blue : Nat) (hreg : region < 3)
    (hr : red < 256) (hg : green < 256) (hb : blue < 256) :
    ((((((((0xF0000000 ||| (region <<< 24)) % 2 ^ 32) ||| (blue <<< 16)) % 2 ^ 32)
      ||| (red <<< 8)) % 2 ^ 32) ||| (green <<< 0)) % 2 ^ 32) % 2 ^ 32
      = spec_color_opcode region red green blue := by
  have e1 : (0xF0000000 ||| (region <<< 24)) % 2 ^ 32 = 0xF0000000 ||| (region <<< 24) :=
    or_mod32 _ _ (by omega) (by rw [Nat.shiftLeft_eq]; omega)
  have b1 : 0xF0000000 ||| (region <<< 24) < 2 ^ 32 :=
    Nat.or_lt_two_pow (by omega) (by rw [Nat.shiftLeft_eq]; omega)
  have e2 : (0xF0000000 ||| (region <<< 24) ||| (blue <<< 16)) % 2 ^ 32
      = 0xF0000000 ||| (region <<< 24) ||| (blue <<< 16) :=
    or_mod32 _ _ b1 (by rw [Nat.shiftLeft_eq]; omega)
  have b2 : 0xF0000000 ||| (region <<< 24) ||| (blue <<< 16) < 2 ^ 32 :=
    Nat.or_lt_two_pow b1 (by rw [Nat.shiftLeft_eq]; omega)
  have e3 : (0xF0000000 ||| (region <<< 24) ||| (blue <<< 16) ||| (red <<< 8)) % 2 ^ 32
      = 0xF0000000 ||| (region <<< 24) ||| (blue <<< 16) ||| (red <<< 8) :=
    or_mod32 _ _ b2 (by rw [Nat.shiftLeft_eq]; omega)
  have b4 := color_opcode_lt region red green blue hreg hr hg hb
  unfold spec_color_opcode at b4 ⊢
  rw [e1, e2, e3, Nat.shiftLeft_zero, Nat.mod_mod, Nat.mod_eq_of_lt b4]

theorem set_region_color_valid (fw : Firmware) (region red green blue : Nat) (s : Driver)
    (hreg : region < 3) (hr : red < 256) (hg : green < 256) (hb : blue < 256) :
    set_region_color fw region red green blue s =
      { keyboard_mode := KB_MODE_CUSTOM
        keyboard_colors := with_region s.keyboard_colors region
          (((red <<< 16) ||| (green <<< 8)) ||| blue)
        keyboard_brightness := s.keyboard_brightness
        wmi_log := s.wmi_log ++ [(SET_KB_LED, spec_color_opcode region red green blue)] } := by
  have hc := cmd_chain region red green blue hreg hr hg hb
  have hp : (((red <<< 16) ||| (green <<< 8)) ||| (blue <<< 0)) % 2 ^ 32
      = ((red <<< 16) ||| (green <<< 8)) ||| blue := by
    rw [Nat.shiftLeft_zero]
    exact Nat.mod_eq_of_lt (lt_trans (pack_lt red green blue hr hg hb) (by norm_num))
  unfold set_region_color
  simp only [Nat.mod_eq_of_lt hr, Nat.mod_eq_of_lt hg, Nat.mod_eq_of_lt hb,
    Nat.mod_eq_of_lt (show region < 256 by omega), wmi_evaluate_wmbb_method_snd, hc, hp]
  have h3 : ¬ (region ≥ KB_REGION_UNKNOWN) := by unfold KB_REGION_UNKNOWN; omega
  rw [if_neg h3]
  unfold with_region SET_KB_LED KB_REGION_LEFT KB_REGION_CENTER KB_REGION_RIGHT
  interval_cases region <;> simp

theorem set_region_color_mod (fw : Firmware) (region red green blue : Nat) (s : Driver) :
    set_region_color fw region red green blue s =
      set_region_color fw (region % 256) (red % 256) (green % 256) (blue % 256) s := by
  unfold set_region_color
  simp only [Nat.mod_mod]

theorem set_region_color_invalid (fw : Firmware) (region red green blue : Nat) (s : Driver)
    (h : 3 ≤ region % 256) : set_region_color fw region red green blue s = s := by
  unfold set_region_color
  have h3 : region % 256 ≥ KB_REGION_UNKNOWN := h
  simp only [h3, if_true]

theorem set_region_color_stored (fw : Firmware) (region c : Nat) (s : Driver)
    (hreg : region < 3) (hc : c < 2 ^ 24) :
    set_region_color fw region (c >>> 16) ((c >>> 8) &&& 0xFF) (c &&& 0xFF) s =
      { keyboard_mode := KB_MODE_CUSTOM
        keyboard_colors := with_region s.keyboard_colors region c
        keyboard_brightness := s.keyboard_brightness
        wmi_log := s.wmi_log ++ [(SET_KB_LED, stored_color_opcode region c)] } := by
  have h1 : (c >>> 16) % 256 = c >>> 16 := by
    rw [Nat.shiftRight_eq_div_pow]; omega
  have h2 : ((c >>> 8) &&& 255) % 256 = (c >>> 8) &&& 255 := by
    rw [and_255]; omega
  have h3 : (c &&& 255) % 256 = c &&& 255 := by
    rw [and_255]; omega
  have hp := pack_channels c hc
  rw [h1, h2, h3] at hp
  rw [set_region_color_valid fw region _ _ _ s hreg (by rw [← h1]; omega)
    (by rw [← h2]; omega) (by rw [← h3]; omega), hp]
  rfl

theorem with_region_left (k : KeyboardColors) : with_region k KB_REGION_LEFT k.left = k := rfl

theorem with_region_center (k : KeyboardColors) :
    with_region k KB_REGION_CENTER k.center = k := rfl

theorem with_region_right (k : KeyboardColors) :
    with_region k KB_REGION_RIGHT k.right = k := rfl

theorem reset_custom_colors_stored (fw : Firmware) (s : Driver) (h : ColorsOk s) :
    reset_custom_colors fw s =
      { keyboard_mode := KB_MODE_CUSTOM
        keyboard_colors := s.keyboard_colors
        keyboard_brightness := s.keyboard_brightness
        wmi_log := s.wmi_log ++
          [(SET_KB_LED, stored_color_opcode KB_REGION_LEFT s.keyboard_colors.left),
           (SET_KB_LED, stored_color_opcode KB_REGION_CENTER s.keyboard_colors.center),
           (SET_KB_LED, stored_color_opcode KB_REGION_RIGHT s.keyboard_colors.right)] } := by
  obtain ⟨hl, hc, hr⟩ := h
  unfold reset_custom_colors
  simp only []
  rw [set_region_color_stored fw KB_REGION_LEFT _ s (by decide) hl, with_region_left]
  simp only []
  rw [set_region_color_stored fw KB_REGION_CENTER _ _ (by decide) hc, with_region_center]
  simp only []
  rw [set_region_color_stored fw KB_REGION_RIGHT _ _ (by decide) hr, with_region_right]
  simp only [List.append_assoc, List.singleton_append, List.cons_append, List.nil_append]

theorem set_keyboard_brightness_eq (fw : Firmware) (b : Nat) (s : Driver) :
    set_keyboard_brightness fw b s =
      { s with
        keyboard_brightness := b % 256
        wmi_log := s.wmi_log ++ [(SET_KB_LED, 0xF4000000 ||| (b % 256))] } := by
  have hb : b % 256 < 256 := Nat.mod_lt _ (by omega)
  have hcl : clamp_t_uint (b % 256) 0 255 % 256 = b % 256 := by
    unfold clamp_t_uint
    have e1 : b % 256 % 2 ^ 32 = b % 256 := Nat.mod_eq_of_lt (by omega)
    rw [e1]
    norm_num
    omega
  have hop : (0xF4000000 ||| (b % 256)) % 2 ^ 32 % 2 ^ 32 = 0xF4000000 ||| (b % 256) := by
    rw [Nat.mod_mod]
    exact or_mod32 _ _ (by omega) (by omega)
  unfold set_keyboard_brightness
  simp only [hcl, hop, wmi_evaluate_wmbb_method_snd]
  rfl

theorem set_keyboard_mode_mod (fw : Firmware) (mode : Nat) (s : Driver) :
    set_keyboard_mode fw mode s = set_keyboard_mode fw (mode % 256) s := by
  unfold set_keyboard_mode
  simp only [Nat.mod_mod]

theorem set_keyboard_mode_invalid (fw : Firmware) (mode : Nat) (s : Driver)
    (h : 8 ≤ mode % 256) : set_keyboard_mode fw mode s = s := by
  unfold set_keyboard_mode
  have h8 : mode % 256 ≥ NUMBER_OF_KEYBOARD_MODES := h
  simp only [h8, if_true]

theorem set_keyboard_mode_custom (fw : Firmware) (s : Driver) (h : ColorsOk s)
    (hb : s.keyboard_brightness < 256) :
    set_keyboard_mode fw KB_MODE_CUSTOM s =
      { keyboard_mode := KB_MODE_CUSTOM
        keyboard_colors := s.keyboard_colors
        keyboard_brightness := s.keyboard_brightness
        wmi_log := s.wmi_log ++
          [(SET_KB_LED, 0x10000000),
           (SET_KB_LED, stored_color_opcode KB_REGION_LEFT s.keyboard_colors.left),
           (SET_KB_LED, stored_color_opcode KB_REGION_CENTER s.keyboard_colors.center),
           (SET_KB_LED, stored_color_opcode KB_REGION_RIGHT s.keyboard_colors.right),
           (SET_KB_LED, 0xF4000000 ||| s.keyboard_brightness)] } := by
  have hs : set_keyboard_mode fw KB_MODE_CUSTOM s =
      set_keyboard_brightness fw
        (reset_custom_colors fw
          { s with wmi_log := s.wmi_log ++ [(SET_KB_LED, 0x10000000)] }).keyboard_brightness
        (reset_custom_colors fw
          { s with wmi_log := s.wmi_log ++ [(SET_KB_LED, 0x10000000)] }) := by
    unfold set_keyboard_mode
    have h1 : ¬ (KB_MODE_CUSTOM % 256 ≥ NUMBER_OF_KEYBOARD_MODES) := by decide
    have h2 : KB_MODE_CUSTOM % 256 = KB_MODE_CUSTOM := by decide
    simp only [h1, h2, if_false, if_true, wmi_evaluate_wmbb_method_snd]
    rfl
  have h' : ColorsOk { s with wmi_log := s.wmi_log ++ [(SET_KB_LED, 0x10000000)] } := h
  rw [hs, reset_custom_colors_stored fw _ h', set_keyboard_brightness_eq]
  simp only [Nat.mod_eq_of_lt hb, List.append_assoc, List.cons_append, List.nil_append]

theorem set_keyboard_mode_canned (fw : Firmware) (mode : Nat) (s : Driver)
    (h8 : mode < 8) (hc : mode ≠ KB_MODE_CUSTOM) :
    set_keyboard_mode fw mode s =
      { s with
        keyboard_mode := mode
        wmi_log := s.wmi_log ++ [(SET_KB_LED, 0x10000000), (SET_KB_LED, cmds.getD mode 0)] } := by
  unfold set_keyboard_mode
  have hm : mode % 256 = mode := Nat.mod_eq_of_lt (by omega)
  have h1 : ¬ (mode ≥ NUMBER_OF_KEYBOARD_MODES) := by unfold NUMBER_OF_KEYBOARD_MODES; omega
  simp only [hm, h1, hc, if_false, wmi_evaluate_wmbb_method_snd]
  have hcmd : cmds.getD mode 0 % 2 ^ 32 = cmds.getD mode 0 := by
    unfold KB_MODE_CUSTOM at hc
    interval_cases mode <;> simp [cmds] at hc ⊢
  rw [hcmd]
  simp only [List.append_assoc, List.cons_append, List.nil_append]
  rfl

/-! ## The invariant is kept by every operation -/

theorem inv_set_region_color (fw : Firmware) (region red green blue : Nat) (s : Driver)
    (h : Inv s) : Inv (set_region_color fw region red green blue s) := by
  by_cases hreg : region % 256 < 3
  · rw [set_region_color_mod,
      set_region_color_valid fw _ _ _ _ s hreg (Nat.mod_lt _ (by omega))
        (Nat.mod_lt _ (by omega)) (Nat.mod_lt _ (by omega))]
    have hp := pack_lt (red % 256) (green % 256) (blue % 256) (Nat.mod_lt _ (by omega))
      (Nat.mod_lt _ (by omega)) (Nat.mod_lt _ (by omega))
    obtain ⟨⟨hl, hc, hr⟩, hb, _⟩ := h
    generalize region % 256 = r at hreg
    unfold Inv ColorsOk with_region KB_REGION_LEFT KB_REGION_CENTER KB_MODE_CUSTOM
      NUMBER_OF_KEYBOARD_MODES
    interval_cases r <;> simp <;> omega
  · rw [set_region_color_invalid fw _ _ _ _ s (by omega)]
    exact h

theorem inv_reset_custom_colors (fw : Firmware) (s : Driver) (h : Inv s) :
    Inv (reset_custom_colors fw s) := by
  unfold reset_custom_colors
  exact inv_set_region_color _ _ _ _ _ _
    (inv_set_region_color _ _ _ _ _ _ (inv_set_region_color _ _ _ _ _ _ h))

theorem inv_set_keyboard_brightness (fw : Firmware) (b : Nat) (s : Driver) (h : Inv s) :
    Inv (set_keyboard_brightness fw b s) := by
  rw [set_keyboard_brightness_eq]
  obtain ⟨hc, _, hm⟩ := h
  exact ⟨hc, Nat.mod_lt _ (by omega), hm⟩

theorem inv_set_keyboard_mode (fw : Firmware) (mode : Nat) (s : Driver) (h : Inv s) :
    Inv (set_keyboard_mode fw mode s) := by
  rw [set_keyboard_mode_mod]
  by_cases h8 : mode % 256 < 8
  · by_cases hc : mode % 256 = KB_MODE_CUSTOM
    · rw [hc, set_keyboard_mode_custom fw s h.1 h.2.1]
      exact ⟨h.1, h.2.1, (by decide : KB_MODE_CUSTOM < NUMBER_OF_KEYBOARD_MODES)⟩
    · rw [set_keyboard_mode_canned fw _ s h8 hc]
      exact ⟨h.1, h.2.1, h8⟩
  · rw [set_keyboard_mode_invalid fw _ s (by rw [Nat.mod_mod]; omega)]
    exact h

theorem inv_set_region_color_attr (fw : Firmware) (region : Nat) (buf : List Nat)
    (s : Driver) (h : Inv s) : Inv (set_region_color_attr fw region buf s) := by
  unfold set_region_color_attr set_region_color_left set_region_color_center
    set_region_color_right
  simp only []
  split_ifs <;> first
    | exact h
    | exact inv_set_region_color _ _ _ _ _ _ h
    | exact inv_set_region_color _ _ _ _ _ _ (inv_reset_custom_colors _ _ h)

theorem inv_set_brightness (fw : Firmware) (buf : List Nat) (s : Driver) (h : Inv s) :
    Inv (set_brightness fw buf s) := by
  unfold set_brightness
  simp only []
  split
  · exact inv_set_keyboard_brightness _ _ _ h
  · exact h

theorem inv_set_mode_integer (fw : Firmware) (buf : List Nat) (s : Driver) (h : Inv s) :
    Inv (set_mode_integer fw buf s) := by
  unfold set_mode_integer
  simp only []
  split
  · exact inv_set_keyboard_mode _ _ _ h
  · exact h

theorem inv_set_mode_desc_loop (fw : Firmware) (buf : List Nat) (count : Nat)
    (names : List String) (m : Nat) (s : Driver) (h : Inv s) :
    Inv (set_mode_desc_loop fw buf count m names s) := by
  induction names generalizing m with
  | nil => exact h
  | cons name rest ih =>
    unfold set_mode_desc_loop
    split
    · exact inv_set_keyboard_mode _ _ _ h
    · exact ih (m + 1)

theorem inv_set_mode_desc (fw : Firmware) (buf : List Nat) (s : Driver) (h : Inv s) :
    Inv (set_mode_desc fw buf s) := by
  unfold set_mode_desc
  simp only []
  split
  · exact h
  · exact inv_set_mode_desc_loop _ _ _ _ _ _ h

theorem inv_dev_attr_store (fw : Firmware) (a : Attr) (buf : List Nat) (s : Driver)
    (h : Inv s) : Inv (dev_attr_store fw a buf s) := by
  cases a
  · exact inv_set_region_color_attr fw KB_REGION_LEFT buf s h
  · exact inv_set_region_color_attr fw KB_REGION_CENTER buf s h
  · exact inv_set_region_color_attr fw KB_REGION_RIGHT buf s h
  · exact inv_set_brightness fw buf s h
  · exact inv_set_mode_integer fw buf s h
  · exact inv_set_mode_desc fw buf s h

theorem inv_mx5r2_wmi_init (fw : Firmware) (g : Bool) (e : Option Int) (s : Driver)
    (h : Inv s) : Inv (mx5r2_wmi_init fw g e s).2 := by
  unfold mx5r2_wmi_init
  cases g
  · exact h
  · cases e
    · exact inv_set_keyboard_brightness _ _ _ (inv_set_region_color _ _ _ _ _ _
        (inv_set_region_color _ _ _ _ _ _ (inv_set_region_color _ _ _ _ _ _ h)))
    · exact h

theorem inv_compiled_defaults : Inv compiled_defaults := by
  unfold Inv ColorsOk compiled_defaults
  decide

theorem reachable_inv (s : Driver) (h : Reachable s) : Inv s := by
  induction h with
  | boot => exact inv_compiled_defaults
  | init fw g e s _ ih => exact inv_mx5r2_wmi_init fw g e s ih
  | store fw a buf s _ ih => exact inv_dev_attr_store fw a buf s ih

theorem set_brightness_stores_low_byte (fw : Firmware) (buf : List Nat) (v : Nat)
    (s : Driver) (h : vsscanf_d 1 buf = [v]) :
    (set_brightness fw buf s).keyboard_brightness = v % 256 := by
  unfold set_brightness
  simp only [h, List.length_singleton, if_true, set_keyboard_brightness_eq]
  rfl

theorem get_mode_integer_custom (s : Driver) (h : s.keyboard_mode = KB_MODE_CUSTOM) :
    get_mode_integer s = "1\n" := by
  unfold get_mode_integer
  rw [h]
  decide

theorem get_mode_desc_custom (s : Driver) (h : s.keyboard_mode = KB_MODE_CUSTOM) :
    get_mode_desc s = "custom\n" := by
  unfold get_mode_desc
  rw [h]
  decide

theorem set_region_color_mode (fw : Firmware) (region red green blue : Nat) (s : Driver)
    (hreg : region % 256 < 3) :
    (set_region_color fw region red green blue s).keyboard_mode = KB_MODE_CUSTOM := by
  rw [set_region_color_mod,
    set_region_color_valid fw _ _ _ _ s hreg (Nat.mod_lt _ (by omega))
      (Nat.mod_lt _ (by omega)) (Nat.mod_lt _ (by omega))]

theorem reset_custom_colors_mode (fw : Firmware) (s : Driver) :
    (reset_custom_colors fw s).keyboard_mode = KB_MODE_CUSTOM := by
  unfold reset_custom_colors
  exact set_region_color_mode fw _ _ _ _ _ (by decide)

theorem set_region_color_attr_eq (fw : Firmware) (region : Nat) (buf : List Nat)
    (a b c : Nat) (s : Driver) (hreg : region < 3) (hp : vsscanf_d 3 buf = [a, b, c]) :
    set_region_color_attr fw region buf s =
      set_region_color fw region a b c
        (if s.keyboard_mode ≠ KB_MODE_CUSTOM then reset_custom_colors fw s else s) := by
  unfold set_region_color_attr set_region_color_left set_region_color_center
    set_region_color_right KB_REGION_LEFT KB_REGION_CENTER KB_REGION_RIGHT
  simp only [hp]
  interval_cases region <;> simp

theorem region_color_with_region_same (s : Driver) (k : KeyboardColors) (region c : Nat)
    (hk : s.keyboard_colors = with_region k region c) (hreg : region < 3) :
    region_color s region = c := by
  unfold region_color
  rw [hk]
  unfold with_region KB_REGION_LEFT KB_REGION_CENTER
  interval_cases region <;> simp

theorem region_color_with_region_other (s t : Driver) (region other c : Nat)
    (hk : s.keyboard_colors = with_region t.keyboard_colors region c) (hreg : region < 3)
    (ho : other < 3) (hne : other ≠ region) :
    region_color s other = region_color t other := by
  unfold region_color
  rw [hk]
  unfold with_region KB_REGION_LEFT KB_REGION_CENTER
  interval_cases region <;> interval_cases other <;> simp at hne ⊢

theorem set_keyboard_mode_custom_mode (fw : Firmware) (s : Driver) :
    (set_keyboard_mode fw KB_MODE_CUSTOM s).keyboard_mode = KB_MODE_CUSTOM := by
  have hs : set_keyboard_mode fw KB_MODE_CUSTOM s =
      set_keyboard_brightness fw
        (reset_custom_colors fw
          { s with wmi_log := s.wmi_log ++ [(SET_KB_LED, 0x10000000)] }).keyboard_brightness
        (reset_custom_colors fw
          { s with wmi_log := s.wmi_log ++ [(SET_KB_LED, 0x10000000)] }) := by
    unfold set_keyboard_mode
    have h1 : ¬ (KB_MODE_CUSTOM % 256 ≥ NUMBER_OF_KEYBOARD_MODES) := by decide
    have h2 : KB_MODE_CUSTOM % 256 = KB_MODE_CUSTOM := by decide
    simp only [h1, h2, if_false, if_true, wmi_evaluate_wmbb_method_snd]
    rfl
  rw [hs, set_keyboard_brightness_eq]
  exact reset_custom_colors_mode fw _

/-! ## Verified claims -/

/-- C1: for every region index below `KB_REGION_UNKNOWN` (0, 1, 2) and all channels in
[0,255], `set_region_color` hands exactly one call to the firmware, with method
`SET_KB_LED` and the opcode `0xF0000000 | (r << 24) | (blue << 16) | (red << 8) | green`,
which is a 32-bit value. -/
theorem C1_set_region_color_submits_color_opcode (fw : Firmware) (s : Driver)
    (r red green blue : Nat) (hreg : r < KB_REGION_UNKNOWN) (hr : red ≤ 255)
    (hg : green ≤ 255) (hb : blue ≤ 255) :
    (set_region_color fw r red green blue s).wmi_log =
        s.wmi_log ++
          [(SET_KB_LED,
            0xF0000000 ||| (r <<< 24) ||| (blue <<< 16) ||| (red <<< 8) ||| green)] ∧
      0xF0000000 ||| (r <<< 24) ||| (blue <<< 16) ||| (red <<< 8) ||| green < 2 ^ 32 := by
  have h3 : r < 3 := hreg
  refine ⟨?_, color_opcode_lt r red green blue h3 (by omega) (by omega) (by omega)⟩
  rw [set_region_color_valid fw r red green blue s h3 (by omega) (by omega) (by omega)]
  rfl

/-- Witness of C1: the center region with the color (10, 20, 30), from the compiled-in state. -/
theorem C1_witness :
    (1 < KB_REGION_UNKNOWN ∧ 10 ≤ 255 ∧ 20 ≤ 255 ∧ 30 ≤ 255) ∧
      ((set_region_color fw_ok 1 10 20 30 compiled_defaults).wmi_log =
          compiled_defaults.wmi_log ++
            [(SET_KB_LED,
              0xF0000000 ||| (1 <<< 24) ||| (30 <<< 16) ||| (10 <<< 8) ||| 20)] ∧
        0xF0000000 ||| (1 <<< 24) ||| (30 <<< 16) ||| (10 <<< 8) ||| 20 < 2 ^ 32) :=
  ⟨by decide,
    C1_set_region_color_submits_color_opcode fw_ok compiled_defaults 1 10 20 30
      (by decide) (by decide) (by decide) (by decide)⟩

/-- C2: for every valid mode other than Custom and every state, `set_keyboard_mode`
hands exactly two calls to the firmware, first the mode-reset opcode `0x10000000`
and then the constant the specification lists for the mode, and it leaves the
stored colors and the stored brightness as they were. -/
theorem C2_set_keyboard_mode_canned_opcodes (fw : Firmware) (s : Driver) (m : Nat)
    (h8 : m < NUMBER_OF_KEYBOARD_MODES) (hc : m ≠ KB_MODE_CUSTOM) :
    ∃ c, spec_mode_opcode m = some c ∧
      (set_keyboard_mode fw m s).wmi_log =
        s.wmi_log ++ [(SET_KB_LED, 0x10000000), (SET_KB_LED, c)] ∧
      (set_keyboard_mode fw m s).keyboard_colors = s.keyboard_colors ∧
      (set_keyboard_mode fw m s).keyboard_brightness = s.keyboard_brightness := by
  have h : m < 8 := h8
  rw [set_keyboard_mode_canned fw m s h hc]
  refine ⟨cmds.getD m 0, ?_, rfl, rfl, rfl⟩
  unfold KB_MODE_CUSTOM at hc
  interval_cases m <;> first | exact absurd rfl hc | rfl

/-- Witness of C2: mode Breathe from the compiled-in state. -/
theorem C2_witness :
    (KB_MODE_BREATHE < NUMBER_OF_KEYBOARD_MODES ∧ KB_MODE_BREATHE ≠ KB_MODE_CUSTOM) ∧
      ∃ c, spec_mode_opcode KB_MODE_BREATHE = some c ∧
        (set_keyboard_mode fw_ok KB_MODE_BREATHE compiled_defaults).wmi_log =
          compiled_defaults.wmi_log ++ [(SET_KB_LED, 0x10000000), (SET_KB_LED, c)] ∧
        (set_keyboard_mode fw_ok KB_MODE_BREATHE compiled_defaults).keyboard_colors =
          compiled_defaults.keyboard_colors ∧
        (set_keyboard_mode fw_ok KB_MODE_BREATHE compiled_defaults).keyboard_brightness =
          compiled_defaults.keyboard_brightness :=
  ⟨by decide,
    C2_set_keyboard_mode_canned_opcodes fw_ok compiled_defaults KB_MODE_BREATHE
      (by decide) (by decide)⟩

/-- C3: for every valid region and all channels in [0,255], from every state, after
`set_region_color` the three values the getter of that region prints are exactly
(red, green, blue), the text read from the region is those three numbers, and
the mode reads back as Custom (integer 1, name "custom"). -/
theorem C3_set_region_color_read_back (fw : Firmware) (s : Driver)
    (r red green blue : Nat) (hreg : r < KB_REGION_UNKNOWN) (hr : red ≤ 255)
    (hg : green ≤ 255) (hb : blue ≤ 255) :
    region_channels (region_color (set_region_color fw r red green blue s) r) =
        (red, green, blue) ∧
      get_region_color (set_region_color fw r red green blue s) r =
        sprintf_ddd (red, green, blue) ∧
      (set_region_color fw r red green blue s).keyboard_mode = KB_MODE_CUSTOM ∧
      get_mode_integer (set_region_color fw r red green blue s) = "1\n" ∧
      get_mode_desc (set_region_color fw r red green blue s) = "custom\n" := by
  have h3 : r < 3 := hreg
  have hch := channels_pack red green blue (by omega : green < 256) (by omega : blue < 256)
  rw [set_region_color_valid fw r red green blue s h3 (by omega) (by omega) (by omega)]
  have hcol : region_color
      { keyboard_mode := KB_MODE_CUSTOM
        keyboard_colors := with_region s.keyboard_colors r
          (((red <<< 16) ||| (green <<< 8)) ||| blue)
        keyboard_brightness := s.keyboard_brightness
        wmi_log := s.wmi_log ++ [(SET_KB_LED, spec_color_opcode r red green blue)] } r
      = ((red <<< 16) ||| (green <<< 8)) ||| blue := by
    unfold region_color with_region KB_REGION_LEFT KB_REGION_CENTER
    interval_cases r <;> simp
  refine ⟨by rw [hcol, hch], ?_, rfl, get_mode_integer_custom _ rfl,
    get_mode_desc_custom _ rfl⟩
  unfold get_region_color get_region_color_left get_region_color_center
    get_region_color_right with_region KB_REGION_LEFT KB_REGION_CENTER
  interval_cases r <;> simp [hch]

/-- Witness of C3: the right region with the color (1, 2, 3), from the compiled-in state. -/
theorem C3_witness :
    (2 < KB_REGION_UNKNOWN ∧ 1 ≤ 255 ∧ 2 ≤ 255 ∧ 3 ≤ 255) ∧
      (region_channels (region_color (set_region_color fw_ok 2 1 2 3 compiled_defaults) 2) =
          (1, 2, 3) ∧
        get_region_color (set_region_color fw_ok 2 1 2 3 compiled_defaults) 2 =
          sprintf_ddd (1, 2, 3) ∧
        (set_region_color fw_ok 2 1 2 3 compiled_defaults).keyboard_mode = KB_MODE_CUSTOM ∧
        get_mode_integer (set_region_color fw_ok 2 1 2 3 compiled_defaults) = "1\n" ∧
        get_mode_desc (set_region_color fw_ok 2 1 2 3 compiled_defaults) = "custom\n") :=
  ⟨by decide,
    C3_set_region_color_read_back fw_ok compiled_defaults 2 1 2 3
      (by decide) (by decide) (by decide) (by decide)⟩

/-- C4: the brightness attribute does not clamp.  Writing "300" stores 44 where
`clamp(300, 0, 255)` is 255, and writing "-56" stores 200 where
`clamp(-56, 0, 255)` is 0: the parsed number is cut to its low byte by the cast
to `unsigned char` before `clamp_t` sees it. -/
theorem C4_set_brightness_wraps_out_of_range :
    vsscanf_d 1 (ascii "300") = [300] ∧
      (set_brightness fw_ok (ascii "300") compiled_defaults).keyboard_brightness = 44 ∧
      spec_clamp 300 0 255 = 255 ∧
      (set_brightness fw_ok (ascii "-56") compiled_defaults).keyboard_brightness = 200 ∧
      spec_clamp (-56) 0 255 = 0 := by
  decide

/-- C5: round trip.  For every reachable state and every valid mode other than
Custom, `set_keyboard_mode` to that mode followed by `set_keyboard_mode` to Custom
gives a state with the three stored colors and the stored brightness of the
start state, and with mode Custom. -/
theorem C5_canned_mode_round_trip (fw1 fw2 : Firmware) (s : Driver) (m : Nat)
    (hs : Reachable s) (h8 : m < NUMBER_OF_KEYBOARD_MODES) (hc : m ≠ KB_MODE_CUSTOM) :
    (set_keyboard_mode fw2 KB_MODE_CUSTOM (set_keyboard_mode fw1 m s)).keyboard_colors =
        s.keyboard_colors ∧
      (set_keyboard_mode fw2 KB_MODE_CUSTOM (set_keyboard_mode fw1 m s)).keyboard_brightness =
        s.keyboard_brightness ∧
      (set_keyboard_mode fw2 KB_MODE_CUSTOM (set_keyboard_mode fw1 m s)).keyboard_mode =
        KB_MODE_CUSTOM := by
  have hi := reachable_inv s hs
  have h : m < 8 := h8
  rw [set_keyboard_mode_canned fw1 m s h hc]
  have hco : ColorsOk { s with
      keyboard_mode := m
      wmi_log := s.wmi_log ++ [(SET_KB_LED, 0x10000000), (SET_KB_LED, cmds.getD m 0)] } :=
    hi.1
  rw [set_keyboard_mode_custom fw2 _ hco hi.2.1]
  exact ⟨rfl, rfl, rfl⟩

/-- Witness of C5: the state after module initialisation, excursion to Wave. -/
theorem C5_witness :
    (Reachable (mx5r2_wmi_init fw_ok true none compiled_defaults).2 ∧
        KB_MODE_WAVE < NUMBER_OF_KEYBOARD_MODES ∧ KB_MODE_WAVE ≠ KB_MODE_CUSTOM) ∧
      ((set_keyboard_mode fw_fail KB_MODE_CUSTOM (set_keyboard_mode fw_ok KB_MODE_WAVE
          (mx5r2_wmi_init fw_ok true none compiled_defaults).2)).keyboard_colors =
          (mx5r2_wmi_init fw_ok true none compiled_defaults).2.keyboard_colors ∧
        (set_keyboard_mode fw_fail KB_MODE_CUSTOM (set_keyboard_mode fw_ok KB_MODE_WAVE
          (mx5r2_wmi_init fw_ok true none compiled_defaults).2)).keyboard_brightness =
          (mx5r2_wmi_init fw_ok true none compiled_defaults).2.keyboard_brightness ∧
        (set_keyboard_mode fw_fail KB_MODE_CUSTOM (set_keyboard_mode fw_ok KB_MODE_WAVE
          (mx5r2_wmi_init fw_ok true none compiled_defaults).2)).keyboard_mode =
          KB_MODE_CUSTOM) :=
  ⟨⟨Reachable.init fw_ok true none compiled_defaults Reachable.boot, by decide, by decide⟩,
    C5_canned_mode_round_trip fw_ok fw_fail (mx5r2_wmi_init fw_ok true none compiled_defaults).2
      KB_MODE_WAVE (Reachable.init fw_ok true none compiled_defaults Reachable.boot)
      (by decide) (by decide)⟩

/-- C6: idempotence.  For every reachable state whose mode is Custom,
`set_keyboard_mode` to Custom leaves the three stored colors, the stored
brightness and the stored mode unchanged, and hands exactly five calls to the
firmware, in this order: the reset opcode `0x10000000`, the Color-set opcodes of the
stored left, center and right colors, and the Brightness-set opcode of the
stored brightness. -/
theorem C6_custom_mode_idempotent (fw : Firmware) (s : Driver) (hs : Reachable s)
    (hm : s.keyboard_mode = KB_MODE_CUSTOM) :
    (set_keyboard_mode fw KB_MODE_CUSTOM s).keyboard_colors = s.keyboard_colors ∧
      (set_keyboard_mode fw KB_MODE_CUSTOM s).keyboard_brightness = s.keyboard_brightness ∧
      (set_keyboard_mode fw KB_MODE_CUSTOM s).keyboard_mode = s.keyboard_mode ∧
      (set_keyboard_mode fw KB_MODE_CUSTOM s).wmi_log =
        s.wmi_log ++
          [(SET_KB_LED, 0x10000000),
           (SET_KB_LED, stored_color_opcode KB_REGION_LEFT s.keyboard_colors.left),
           (SET_KB_LED, stored_color_opcode KB_REGION_CENTER s.keyboard_colors.center),
           (SET_KB_LED, stored_color_opcode KB_REGION_RIGHT s.keyboard_colors.right),
           (SET_KB_LED, spec_brightness_opcode s.keyboard_brightness)] := by
  have hi := reachable_inv s hs
  rw [set_keyboard_mode_custom fw s hi.1 hi.2.1]
  exact ⟨rfl, rfl, hm.symm, rfl⟩

/-- Witness of C6: the state after module initialisation, whose mode is Custom. -/
theorem C6_witness :
    (Reachable (mx5r2_wmi_init fw_ok true none compiled_defaults).2 ∧
        (mx5r2_wmi_init fw_ok true none compiled_defaults).2.keyboard_mode = KB_MODE_CUSTOM) ∧
      (set_keyboard_mode fw_ok KB_MODE_CUSTOM
          (mx5r2_wmi_init fw_ok true none compiled_defaults).2).wmi_log =
        (mx5r2_wmi_init fw_ok true none compiled_defaults).2.wmi_log ++
          [(SET_KB_LED, 0x10000000), (SET_KB_LED, 0xF000FF00), (SET_KB_LED, 0xF10000FF),
           (SET_KB_LED, 0xF2FF0000), (SET_KB_LED, 0xF40000FF)] :=
  ⟨⟨Reachable.init fw_ok true none compiled_defaults Reachable.boot, by decide⟩,
    (C6_custom_mode_idempotent fw_ok (mx5r2_wmi_init fw_ok true none compiled_defaults).2
      (Reachable.init fw_ok true none compiled_defaults Reachable.boot) (by decide)).2.2.2⟩

/-- C7: mode-switch side effect.  For every reachable state whose mode is not
Custom and every write of three integers to the attribute of a region, the
handler first hands the firmware the Color-set opcodes of the three stored colors
(left, center, right) and only then the Color-set opcode of the new value (each
integer cut to a byte by the cast to `unsigned char`); afterwards the mode is
Custom, the written region stores the new color, and the two other regions
store the colors they had before.  For integers in [0,255] the new color is the
written triple itself. -/
theorem C7_color_write_in_canned_mode_restores_palette (fw : Firmware) (s : Driver)
    (r : Nat) (buf : List Nat) (a b c : Nat) (hs : Reachable s)
    (hm : s.keyboard_mode ≠ KB_MODE_CUSTOM) (hreg : r < KB_REGION_UNKNOWN)
    (hp : vsscanf_d 3 buf = [a, b, c]) :
    (set_region_color_attr fw r buf s).wmi_log =
        s.wmi_log ++
          [(SET_KB_LED, stored_color_opcode KB_REGION_LEFT s.keyboard_colors.left),
           (SET_KB_LED, stored_color_opcode KB_REGION_CENTER s.keyboard_colors.center),
           (SET_KB_LED, stored_color_opcode KB_REGION_RIGHT s.keyboard_colors.right),
           (SET_KB_LED, spec_color_opcode r (a % 256) (b % 256) (c % 256))] ∧
      (set_region_color_attr fw r buf s).keyboard_mode = KB_MODE_CUSTOM ∧
      region_channels (region_color (set_region_color_attr fw r buf s) r) =
        (a % 256, b % 256, c % 256) ∧
      (∀ other, other < KB_REGION_UNKNOWN → other ≠ r →
        region_color (set_region_color_attr fw r buf s) other = region_color s other) ∧
      (a ≤ 255 → b ≤ 255 → c ≤ 255 →
        region_channels (region_color (set_region_color_attr fw r buf s) r) = (a, b, c)) := by
  have hi := reachable_inv s hs
  have h3 : r < 3 := hreg
  have ha : a % 256 < 256 := Nat.mod_lt _ (by omega)
  have hb : b % 256 < 256 := Nat.mod_lt _ (by omega)
  have hc : c % 256 < 256 := Nat.mod_lt _ (by omega)
  have hch := channels_pack (a % 256) (b % 256) (c % 256) hb hc
  rw [set_region_color_attr_eq fw r buf a b c s h3 hp, if_pos hm,
    reset_custom_colors_stored fw s hi.1, set_region_color_mod,
    Nat.mod_eq_of_lt (show r < 256 by omega),
    set_region_color_valid fw r _ _ _ _ h3 ha hb hc]
  have hsame := region_color_with_region_same
    { keyboard_mode := KB_MODE_CUSTOM
      keyboard_colors := with_region s.keyboard_colors r
        ((((a % 256) <<< 16) ||| ((b % 256) <<< 8)) ||| (c % 256))
      keyboard_brightness := s.keyboard_brightness
      wmi_log := s.wmi_log ++
          [(SET_KB_LED, stored_color_opcode KB_REGION_LEFT s.keyboard_colors.left),
           (SET_KB_LED, stored_color_opcode KB_REGION_CENTER s.keyboard_colors.center),
           (SET_KB_LED, stored_color_opcode KB_REGION_RIGHT s.keyboard_colors.right)] ++
          [(SET_KB_LED, spec_color_opcode r (a % 256) (b % 256) (c % 256))] }
    s.keyboard_colors r _ rfl h3
  refine ⟨by simp, rfl, by rw [hsame, hch], ?_, ?_⟩
  · intro other ho hne
    exact region_color_with_region_other _ s r other _ rfl h3 ho hne
  · intro ha' hb' hc'
    rw [hsame, hch, Nat.mod_eq_of_lt (show a < 256 by omega),
      Nat.mod_eq_of_lt (show b < 256 by omega), Nat.mod_eq_of_lt (show c < 256 by omega)]

/-- Witness of C7: after initialisation the mode is set to Wave through the
`modedesc` attribute, then "10 20 30" is written to `left`. -/
theorem C7_witness :
    (Reachable (dev_attr_store fw_ok Attr.modedesc (ascii "wave\n")
          (mx5r2_wmi_init fw_ok true none compiled_defaults).2) ∧
        (dev_attr_store fw_ok Attr.modedesc (ascii "wave\n")
          (mx5r2_wmi_init fw_ok true none compiled_defaults).2).keyboard_mode = KB_MODE_WAVE ∧
        KB_MODE_WAVE ≠ KB_MODE_CUSTOM ∧
        KB_REGION_LEFT < KB_REGION_UNKNOWN ∧
        vsscanf_d 3 (ascii "10 20 30") = [10, 20, 30]) ∧
      (set_region_color_attr fw_ok KB_REGION_LEFT (ascii "10 20 30")
          (dev_attr_store fw_ok Attr.modedesc (ascii "wave\n")
            (mx5r2_wmi_init fw_ok true none compiled_defaults).2)).wmi_log =
        (dev_attr_store fw_ok Attr.modedesc (ascii "wave\n")
            (mx5r2_wmi_init fw_ok true none compiled_defaults).2).wmi_log ++
          [(SET_KB_LED, 0xF000FF00), (SET_KB_LED, 0xF10000FF), (SET_KB_LED, 0xF2FF0000),
           (SET_KB_LED, 0xF01E0A14)] :=
  ⟨⟨Reachable.store fw_ok Attr.modedesc (ascii "wave\n") _
        (Reachable.init fw_ok true none compiled_defaults Reachable.boot),
      by decide, by decide, by decide, by decide⟩,
    (C7_color_write_in_canned_mode_restores_palette fw_ok
      (dev_attr_store fw_ok Attr.modedesc (ascii "wave\n")
        (mx5r2_wmi_init fw_ok true none compiled_defaults).2)
      KB_REGION_LEFT (ascii "10 20 30") 10 20 30
      (Reachable.store fw_ok Attr.modedesc (ascii "wave\n") _
        (Reachable.init fw_ok true none compiled_defaults Reachable.boot))
      (by decide) (by decide) (by decide)).1⟩

/-- C8: for every state and every one of the eight valid modes, Custom included,
the mode stored after `set_keyboard_mode` is that mode. -/
theorem C8_set_keyboard_mode_stores_mode (fw : Firmware) (s : Driver) (m : Nat)
    (h8 : m < NUMBER_OF_KEYBOARD_MODES) : (set_keyboard_mode fw m s).keyboard_mode = m := by
  by_cases hc : m = KB_MODE_CUSTOM
  · rw [hc]
    exact set_keyboard_mode_custom_mode fw s
  · rw [set_keyboard_mode_canned fw m s h8 hc]

/-- Witness of C8: Custom requested while the mode is Flash. -/
theorem C8_witness :
    KB_MODE_CUSTOM < NUMBER_OF_KEYBOARD_MODES ∧
      (set_keyboard_mode fw_ok KB_MODE_CUSTOM
        (set_keyboard_mode fw_ok KB_MODE_FLASH compiled_defaults)).keyboard_mode =
        KB_MODE_CUSTOM :=
  ⟨by decide,
    C8_set_keyboard_mode_stores_mode fw_ok
      (set_keyboard_mode fw_ok KB_MODE_FLASH compiled_defaults) KB_MODE_CUSTOM (by decide)⟩

/-- C9, as stated, fails for the brightness setter: in mode Wave, a call of
`set_keyboard_brightness`, and a write of "100" to the `brightness` attribute,
leave the mode at Wave, which is not Custom. -/
theorem C9_brightness_setter_keeps_wave :
    (set_keyboard_brightness fw_ok 100
        (set_keyboard_mode fw_ok KB_MODE_WAVE compiled_defaults)).keyboard_mode ≠
        KB_MODE_CUSTOM ∧
      (set_brightness fw_ok (ascii "100")
        (set_keyboard_mode fw_ok KB_MODE_WAVE compiled_defaults)).keyboard_mode ≠
        KB_MODE_CUSTOM := by
  decide

/-- C9, amended: from every state, every call of `set_region_color` with a valid
region leaves the mode equal to Custom, and every call of
`set_keyboard_brightness` leaves the mode as it was. -/
theorem C9_color_setter_forces_custom_brightness_keeps_mode (fw : Firmware) (s : Driver)
    (r red green blue brightness : Nat) (hreg : r < KB_REGION_UNKNOWN) :
    (set_region_color fw r red green blue s).keyboard_mode = KB_MODE_CUSTOM ∧
      (set_keyboard_brightness fw brightness s).keyboard_mode = s.keyboard_mode := by
  have h3 : r < 3 := hreg
  refine ⟨set_region_color_mode fw r red green blue s ?_, ?_⟩
  · rw [Nat.mod_eq_of_lt (show r < 256 by omega)]
    exact h3
  · rw [set_keyboard_brightness_eq]

/-- Witness of the amended C9: from mode Wave, a color call gives Custom and a
brightness call keeps Wave. -/
theorem C9_witness :
    KB_REGION_CENTER < KB_REGION_UNKNOWN ∧
      ((set_region_color fw_ok KB_REGION_CENTER 1 2 3
          (set_keyboard_mode fw_ok KB_MODE_WAVE compiled_defaults)).keyboard_mode =
          KB_MODE_CUSTOM ∧
        (set_keyboard_brightness fw_ok 7
          (set_keyboard_mode fw_ok KB_MODE_WAVE compiled_defaults)).keyboard_mode =
          (set_keyboard_mode fw_ok KB_MODE_WAVE compiled_defaults).keyboard_mode) :=
  ⟨by decide,
    C9_color_setter_forces_custom_brightness_keeps_mode fw_ok
      (set_keyboard_mode fw_ok KB_MODE_WAVE compiled_defaults) KB_REGION_CENTER 1 2 3 7
      (by decide)⟩

/-- C10: for every state and every brightness value, `set_keyboard_brightness`
changes neither the mode nor any of the three stored colors; it stores the
brightness and hands one call to the firmware. -/
theorem C10_set_keyboard_brightness_frame (fw : Firmware) (s : Driver) (brightness : Nat) :
    (set_keyboard_brightness fw brightness s).keyboard_mode = s.keyboard_mode ∧
      (set_keyboard_brightness fw brightness s).keyboard_colors = s.keyboard_colors ∧
      (set_keyboard_brightness fw brightness s).keyboard_brightness = brightness % 256 ∧
      (set_keyboard_brightness fw brightness s).wmi_log =
        s.wmi_log ++ [(SET_KB_LED, spec_brightness_opcode (brightness % 256))] := by
  rw [set_keyboard_brightness_eq]
  exact ⟨rfl, rfl, rfl, rfl⟩

/-! ## Further closed forms -/

theorem brightness_opcode_eq (b : Nat) (hb : b < 256) :
    0xF4000000 ||| b = 0xF4000000 + b := by
  have h := Nat.mul_add_lt_is_or (show b < 2 ^ 8 by omega) 0xF40000
  have e : 2 ^ 8 * 0xF40000 = 0xF4000000 := by norm_num
  rw [e] at h
  exact h.symm

theorem set_mode_integer_eq (fw : Firmware) (buf : List Nat) (v : Nat) (s : Driver)
    (h : vsscanf_d 1 buf = [v]) : set_mode_integer fw buf s = set_keyboard_mode fw v s := by
  unfold set_mode_integer
  simp only [h, List.length_singleton, if_true]
  rfl

theorem set_mode_integer_low_byte_out_of_range (fw : Firmware) (buf : List Nat) (v : Nat)
    (s : Driver) (h : vsscanf_d 1 buf = [v]) (hv : 8 ≤ v % 256) :
    set_mode_integer fw buf s = s := by
  rw [set_mode_integer_eq fw buf v s h, set_keyboard_mode_invalid fw v s hv]

theorem cstr_nil : cstr [] = [] := rfl

theorem cstr_cons_zero (l : List Nat) : cstr (0 :: l) = [] := rfl

theorem cstr_cons_ne (x : Nat) (l : List Nat) (hx : x ≠ 0) : cstr (x :: l) = x :: cstr l := by
  unfold cstr
  rw [List.takeWhile_cons_of_pos]
  simpa using hx

theorem cstr_of_no_nul (l : List Nat) (h : ∀ c ∈ l, c ≠ 0) : cstr l = l := by
  induction l with
  | nil => rfl
  | cons x xs ih =>
    rw [cstr_cons_ne x xs (h x (List.mem_cons_self x xs)),
      ih (fun c hc => h c (List.mem_cons_of_mem x hc))]

theorem strncmp_eq_zero_iff (cs ct : List Nat) (n : Nat) :
    strncmp cs ct n = 0 ↔ (cstr cs).take n = (cstr ct).take n := by
  induction n generalizing cs ct with
  | zero => simp [strncmp]
  | succ n ih =>
    rw [strncmp]
    rcases cs with _ | ⟨x, xs⟩ <;> rcases ct with _ | ⟨y, ys⟩
    · simp [cstr_nil]
    · by_cases hy : y = 0
      · subst hy
        simp [cstr_nil, cstr_cons_zero]
      · have h0 : ¬ (0 = y) := fun h => hy h.symm
        have hlt : 0 < y := Nat.pos_of_ne_zero hy
        simp [cstr_nil, cstr_cons_ne y ys hy, h0, hlt]
    · by_cases hx : x = 0
      · subst hx
        simp [cstr_nil, cstr_cons_zero]
      · simp [cstr_nil, cstr_cons_ne x xs hx, hx]
    · by_cases hxy : x = y
      · subst hxy
        by_cases hx : x = 0
        · subst hx
          simp [cstr_cons_zero]
        · simp [cstr_cons_ne x xs hx, cstr_cons_ne x ys hx, hx, ih xs ys]
      · by_cases hx : x = 0
        · subst hx
          have hy : y ≠ 0 := fun h => hxy h.symm
          have hlt : 0 < y := Nat.pos_of_ne_zero hy
          simp [cstr_cons_zero, cstr_cons_ne y ys hy, hxy, hlt]
        · by_cases hy : y = 0
          · subst hy
            simp [cstr_cons_zero, cstr_cons_ne x xs hx, hx]
          · have hsplit : (if x < y then (-1 : Int) else 1) ≠ 0 := by
              split <;> decide
            simp [cstr_cons_ne x xs hx, cstr_cons_ne y ys hy, hxy, hsplit]

theorem strncmp_name_iff (name : String) (buf : List Nat)
    (hname : cstr (ascii name) = ascii name) :
    strncmp (ascii name) buf (buf.length - 1) = 0 ↔ spec_name_matches name buf = true := by
  rw [strncmp_eq_zero_iff, hname]
  unfold spec_name_matches
  simp

theorem spec_selected_mode_eq (buf : List Nat) :
    spec_selected_mode buf =
      if spec_name_matches "random" buf = true then some 0
      else if spec_name_matches "custom" buf = true then some 1
      else if spec_name_matches "breathe" buf = true then some 2
      else if spec_name_matches "cycle" buf = true then some 3
      else if spec_name_matches "wave" buf = true then some 4
      else if spec_name_matches "dance" buf = true then some 5
      else if spec_name_matches "tempo" buf = true then some 6
      else if spec_name_matches "flash" buf = true then some 7
      else none := by
  have hr : List.range NUMBER_OF_KEYBOARD_MODES = [0, 1, 2, 3, 4, 5, 6, 7] := by decide
  unfold spec_selected_mode
  rw [hr]
  simp only [List.find?_cons, List.find?_nil, keyboard_mode_description, List.getD_cons_zero,
    List.getD_cons_succ]
  repeat' split
  all_goals simp_all

theorem set_mode_desc_eq_spec (fw : Firmware) (buf : List Nat) (s : Driver) :
    set_mode_desc fw buf s = spec_set_mode_desc fw buf s := by
  unfold set_mode_desc spec_set_mode_desc
  simp only []
  by_cases h : buf.length < 2
  · rw [if_pos h, if_pos h]
  · rw [if_neg h, if_neg h, spec_selected_mode_eq]
    simp only [set_mode_desc_loop, keyboard_mode_description,
      strncmp_name_iff "random" buf (by decide), strncmp_name_iff "custom" buf (by decide),
      strncmp_name_iff "breathe" buf (by decide), strncmp_name_iff "cycle" buf (by decide),
      strncmp_name_iff "wave" buf (by decide), strncmp_name_iff "dance" buf (by decide),
      strncmp_name_iff "tempo" buf (by decide), strncmp_name_iff "flash" buf (by decide)]
    repeat' split
    all_goals simp_all

theorem set_keyboard_mode_stores (fw : Firmware) (s : Driver) (m : Nat) (h8 : m < 8) :
    (set_keyboard_mode fw m s).keyboard_mode = m := by
  by_cases hc : m = KB_MODE_CUSTOM
  · rw [hc]
    exact set_keyboard_mode_custom_mode fw s
  · rw [set_keyboard_mode_canned fw m s h8 hc]

theorem get_mode_desc_of_mode (s : Driver) (h8 : s.keyboard_mode < 8) :
    get_mode_desc s = keyboard_mode_description.getD s.keyboard_mode "" ++ "\n" := by
  unfold get_mode_desc
  have h : ¬ (s.keyboard_mode ≥ NUMBER_OF_KEYBOARD_MODES) := by
    unfold NUMBER_OF_KEYBOARD_MODES
    omega
  rw [if_neg h]

theorem set_mode_desc_name (fw : Firmware) (s : Driver) (m b : Nat) (h8 : m < 8) :
    set_mode_desc fw (ascii (keyboard_mode_description.getD m "") ++ [b]) s =
      set_keyboard_mode fw m s := by
  interval_cases m <;> rfl

/-! ## Verified claims, continued -/

/-- C11: for every brightness in [0,255], `set_keyboard_brightness` stores it and
hands exactly one call to the firmware, with the opcode `0xF4000000 | b`; the low
byte of that opcode is the brightness, the bits above it are those of
`0xF4000000`, and it is a 32-bit value. -/
theorem C11_set_keyboard_brightness_opcode (fw : Firmware) (s : Driver) (b : Nat)
    (hb : b ≤ 255) :
    (set_keyboard_brightness fw b s).keyboard_brightness = b ∧
      (set_keyboard_brightness fw b s).wmi_log =
        s.wmi_log ++ [(SET_KB_LED, 0xF4000000 ||| b)] ∧
      (0xF4000000 ||| b) % 256 = b ∧
      (0xF4000000 ||| b) / 256 = 0xF4000000 / 256 ∧
      0xF4000000 ||| b < 2 ^ 32 := by
  have hlt : b < 256 := by omega
  have hop := brightness_opcode_eq b hlt
  rw [set_keyboard_brightness_eq, Nat.mod_eq_of_lt hlt]
  refine ⟨rfl, rfl, ?_, ?_, ?_⟩ <;> rw [hop] <;> omega

/-- Witness of C11: brightness 100 in the compiled-in state. -/
theorem C11_witness :
    100 ≤ 255 ∧
      (set_keyboard_brightness fw_ok 100 compiled_defaults).keyboard_brightness = 100 ∧
      (set_keyboard_brightness fw_ok 100 compiled_defaults).wmi_log =
        compiled_defaults.wmi_log ++ [(SET_KB_LED, 0xF4000064)] :=
  ⟨by decide,
    (C11_set_keyboard_brightness_opcode fw_ok compiled_defaults 100 (by decide)).1,
    (C11_set_keyboard_brightness_opcode fw_ok compiled_defaults 100 (by decide)).2.1⟩

/-- C12: the `mode` attribute is not a no-op for every integer outside 0..7.
Writing "256" selects RandomColor and hands the reset opcode and `0x70000000` to
the firmware, and writing "-255" re-sends the Custom palette: the parsed number
is cut to its low byte by the cast to `unsigned char` before the range check of
`set_keyboard_mode` sees it. -/
theorem C12_set_mode_integer_wraps_out_of_range :
    vsscanf_d 1 (ascii "256") = [256] ∧
      (set_mode_integer fw_ok (ascii "256") compiled_defaults).keyboard_mode =
        KB_MODE_RANDOM_COLOR ∧
      (set_mode_integer fw_ok (ascii "256") compiled_defaults).wmi_log =
        [(SET_KB_LED, 0x10000000), (SET_KB_LED, 0x70000000)] ∧
      compiled_defaults.keyboard_mode = KB_MODE_CUSTOM ∧
      (set_mode_integer fw_ok (ascii "-255") compiled_defaults).wmi_log.length = 5 := by
  decide

/-- C13: for each of the eight modes, writing the lowercase name of the mode
followed by exactly one more byte (any byte) to the mode-description attribute
applies `set_keyboard_mode` for that mode, the stored mode is that mode, and a
following read of the attribute gives the same name followed by a newline. -/
theorem C13_mode_name_write_selects_mode (fw : Firmware) (s : Driver) (m b : Nat)
    (h8 : m < NUMBER_OF_KEYBOARD_MODES) :
    set_mode_desc fw (ascii (keyboard_mode_description.getD m "") ++ [b]) s =
        set_keyboard_mode fw m s ∧
      (set_mode_desc fw (ascii (keyboard_mode_description.getD m "") ++ [b]) s).keyboard_mode
        = m ∧
      get_mode_desc
          (set_mode_desc fw (ascii (keyboard_mode_description.getD m "") ++ [b]) s) =
        keyboard_mode_description.getD m "" ++ "\n" := by
  have h : m < 8 := h8
  have hm := set_keyboard_mode_stores fw s m h
  rw [set_mode_desc_name fw s m b h]
  refine ⟨rfl, hm, ?_⟩
  rw [get_mode_desc_of_mode _ (by rw [hm]; exact h), hm]

/-- Witness of C13: "cycle" followed by a newline selects index 3, Cycle, and the
attribute then reads "cycle" and a newline. -/
theorem C13_witness :
    (KB_MODE_CYCLE < NUMBER_OF_KEYBOARD_MODES ∧
        ascii "cycle\n" = ascii (keyboard_mode_description.getD KB_MODE_CYCLE "") ++ [10]) ∧
      (set_mode_desc fw_ok (ascii "cycle\n") compiled_defaults).keyboard_mode = 3 ∧
      get_mode_desc (set_mode_desc fw_ok (ascii "cycle\n") compiled_defaults) = "cycle\n" :=
  ⟨by decide,
    (C13_mode_name_write_selects_mode fw_ok compiled_defaults KB_MODE_CYCLE 10
      (by decide)).2.1,
    (C13_mode_name_write_selects_mode fw_ok compiled_defaults KB_MODE_CYCLE 10
      (by decide)).2.2⟩

/-- C14: textual mode selection.  `set_mode_desc` leaves the state untouched for
every input shorter than two bytes; for a longer input it applies
`set_keyboard_mode` to the first mode in enumeration order whose name agrees with
the input string on the first `size - 1` bytes (the last input byte is not
compared), and applies no mode when no name agrees.  So "cyc" and a newline
selects Cycle, and "cyclee" and a newline selects nothing.  For an input without
NUL bytes the compared part of the input is its first `size - 1` bytes as written. -/
theorem C14_textual_mode_selection_rule (fw : Firmware) (buf : List Nat) (s : Driver) :
    set_mode_desc fw buf s = spec_set_mode_desc fw buf s ∧
      (buf.length < 2 → set_mode_desc fw buf s = s) ∧
      set_mode_desc fw (ascii "cyc\n") s = set_keyboard_mode fw KB_MODE_CYCLE s ∧
      set_mode_desc fw (ascii "cyclee\n") s = s ∧
      ((∀ c ∈ buf, c ≠ 0) → ∀ name : String,
        spec_name_matches name buf =
          ((ascii name).take (buf.length - 1) == buf.take (buf.length - 1))) := by
  refine ⟨set_mode_desc_eq_spec fw buf s, ?_, rfl, rfl, ?_⟩
  · intro h
    unfold set_mode_desc
    simp only [h, if_true]
  · intro h name
    unfold spec_name_matches
    rw [cstr_of_no_nul buf h]

/-- Witness of C14: the one-byte input is rejected, and for "cyc" and a newline
the compared part is "cyc". -/
theorem C14_witness :
    ([10].length < 2 ∧ ∀ c ∈ ascii "cyc\n", c ≠ 0) ∧
      set_mode_desc fw_ok [10] compiled_defaults = compiled_defaults ∧
      spec_name_matches "cycle" (ascii "cyc\n") =
        ((ascii "cycle").take ((ascii "cyc\n").length - 1) ==
          (ascii "cyc\n").take ((ascii "cyc\n").length - 1)) :=
  ⟨⟨by decide, by decide⟩,
    (C14_textual_mode_selection_rule fw_ok [10] compiled_defaults).2.1 (by decide),
    (C14_textual_mode_selection_rule fw_ok (ascii "cyc\n") compiled_defaults).2.2.2.2
      (by decide) "cycle"⟩

/-! ## Input that does not parse, and independence from the firmware -/

theorem vsscanf_d_one_of_no_integer (buf : List Nat)
    (h : spec_starts_with_integer buf = false) : vsscanf_d 1 buf = [] := by
  unfold spec_starts_with_integer at h
  unfold vsscanf_d
  simp only []
  split at h <;> simp_all [isdigit]

theorem set_brightness_of_no_integer (fw : Firmware) (buf : List Nat) (s : Driver)
    (h : spec_starts_with_integer buf = false) : set_brightness fw buf s = s := by
  unfold set_brightness
  simp [vsscanf_d_one_of_no_integer buf h]

theorem set_region_color_attr_of_short (fw : Firmware) (region : Nat) (buf : List Nat)
    (s : Driver) (h : (vsscanf_d 3 buf).length < 3) :
    set_region_color_attr fw region buf s = s := by
  have hne : ¬ ((vsscanf_d 3 buf).length = 3) := by omega
  unfold set_region_color_attr set_region_color_left set_region_color_center
    set_region_color_right
  simp only [hne, if_false, ite_self]

theorem skip_spaces_eq_dropWhile (l : List Nat) : skip_spaces l = l.dropWhile isspace := by
  induction l with
  | nil => rfl
  | cons c cs ih =>
    unfold skip_spaces
    by_cases h : isspace c = true
    · rw [if_pos h, ih, List.dropWhile_cons_of_pos h]
    · rw [if_neg h, List.dropWhile_cons_of_neg h]

theorem parse_digits_rest (acc : Nat) (l : List Nat) :
    (parse_digits acc l).2 = l.dropWhile isdigit := by
  induction l generalizing acc with
  | nil => rfl
  | cons c cs ih =>
    unfold parse_digits
    by_cases h : isdigit c = true
    · rw [if_pos h, ih, List.dropWhile_cons_of_pos h]
    · rw [if_neg h, List.dropWhile_cons_of_neg h]

theorem isdigit_minus : isdigit 45 = false := by decide

theorem vsscanf_d_succ_length (n : Nat) (buf : List Nat) :
    (vsscanf_d (n + 1) buf).length =
      match spec_after_integer buf with
      | some rest => (vsscanf_d n rest).length + 1
      | none => 0 := by
  unfold spec_after_integer
  rw [vsscanf_d, skip_spaces_eq_dropWhile]
  generalize buf.dropWhile isspace = str
  rcases str with _ | ⟨c, cs⟩
  · simp [isdigit]
  · by_cases hc : c = 45
    · subst hc
      rcases cs with _ | ⟨d, rest⟩
      · simp [isdigit]
      · by_cases hd : isdigit d = true
        · simp [hd, simple_strtol, parse_digits_rest, List.dropWhile_cons_of_pos hd]
        · simp [hd]
    · by_cases hd : isdigit c = true
      · have hs : (simple_strtol (c :: cs)).2 = cs.dropWhile isdigit := by
          unfold simple_strtol
          split
          · rename_i heq
            simp only [List.cons.injEq] at heq
            exact absurd heq.1 hc
          · rw [parse_digits_rest, List.dropWhile_cons_of_pos hd]
        split <;> simp_all
      · split <;> simp_all

theorem vsscanf_d_length_eq_iff (n : Nat) (buf : List Nat) :
    (vsscanf_d n buf).length = n ↔ spec_starts_with_integers n buf = true := by
  induction n generalizing buf with
  | zero => simp [vsscanf_d, spec_starts_with_integers]
  | succ n ih =>
    rw [vsscanf_d_succ_length, spec_starts_with_integers]
    cases h : spec_after_integer buf with
    | none => simp
    | some rest => simpa using ih rest

theorem spec_starts_with_integers_one (buf : List Nat) :
    spec_starts_with_integers 1 buf = spec_starts_with_integer buf := by
  unfold spec_starts_with_integer
  rw [spec_starts_with_integers, skip_spaces_eq_dropWhile]
  unfold spec_after_integer
  generalize buf.dropWhile isspace = str
  split <;> split <;> simp_all [spec_starts_with_integers]

theorem set_region_color_attr_of_no_three_integers (fw : Firmware) (region : Nat)
    (buf : List Nat) (s : Driver) (h : spec_starts_with_integers 3 buf = false) :
    set_region_color_attr fw region buf s = s := by
  have hne : ¬ ((vsscanf_d 3 buf).length = 3) := by
    rw [vsscanf_d_length_eq_iff, h]
    decide
  unfold set_region_color_attr set_region_color_left set_region_color_center
    set_region_color_right
  simp only [hne, if_false, ite_self]

theorem set_region_color_log_length (fw : Firmware) (region red green blue : Nat) (s : Driver)
    (hreg : region % 256 < 3) :
    (set_region_color fw region red green blue s).wmi_log.length = s.wmi_log.length + 1 := by
  rw [set_region_color_mod,
    set_region_color_valid fw _ _ _ _ s hreg (Nat.mod_lt _ (by omega))
      (Nat.mod_lt _ (by omega)) (Nat.mod_lt _ (by omega))]
  simp

theorem reset_custom_colors_log_length (fw : Firmware) (s : Driver) :
    (reset_custom_colors fw s).wmi_log.length = s.wmi_log.length + 3 := by
  unfold reset_custom_colors
  simp only []
  rw [set_region_color_log_length fw _ _ _ _ _ (by decide),
    set_region_color_log_length fw _ _ _ _ _ (by decide),
    set_region_color_log_length fw _ _ _ _ _ (by decide)]

theorem set_region_color_attr_of_three_integers (fw : Firmware) (region : Nat)
    (buf : List Nat) (s : Driver) (hreg : region < 3)
    (h : spec_starts_with_integers 3 buf = true) :
    s.wmi_log.length < (set_region_color_attr fw region buf s).wmi_log.length := by
  have hlen := (vsscanf_d_length_eq_iff 3 buf).2 h
  obtain ⟨a, b, c, habc⟩ : ∃ a b c, vsscanf_d 3 buf = [a, b, c] := by
    rcases hv : vsscanf_d 3 buf with _ | ⟨a, _ | ⟨b, _ | ⟨c, _ | ⟨d, l⟩⟩⟩⟩ <;>
      rw [hv] at hlen <;> simp at hlen
    exact ⟨a, b, c, rfl⟩
  rw [set_region_color_attr_eq fw region buf a b c s hreg habc,
    set_region_color_log_length fw _ _ _ _ _
      (by rw [Nat.mod_eq_of_lt (show region < 256 by omega)]; exact hreg)]
  split
  · rw [reset_custom_colors_log_length]; omega
  · omega

theorem three_integers_without_blanks :
    spec_starts_with_integers 3 (ascii "1-2-3") = true ∧
      vsscanf_d 3 (ascii "1-2-3") = [1, 2 ^ 32 - 2, 2 ^ 32 - 3] ∧
      (set_region_color_left fw_ok (ascii "1-2-3") compiled_defaults).keyboard_colors.left =
        0x01FEFD := by
  decide

theorem set_brightness_of_integer (fw : Firmware) (buf : List Nat) (s : Driver)
    (h : spec_starts_with_integer buf = true) :
    (set_brightness fw buf s).wmi_log.length = s.wmi_log.length + 1 := by
  have hlen : (vsscanf_d 1 buf).length = 1 := by
    rw [vsscanf_d_length_eq_iff, spec_starts_with_integers_one, h]
  unfold set_brightness
  simp only [hlen, if_true, set_keyboard_brightness_eq]
  simp

theorem set_region_color_fw (fw1 fw2 : Firmware) (region red green blue : Nat) (s : Driver) :
    set_region_color fw1 region red green blue s =
      set_region_color fw2 region red green blue s := by
  unfold set_region_color
  simp only [wmi_evaluate_wmbb_method_snd]

theorem reset_custom_colors_fw (fw1 fw2 : Firmware) (s : Driver) :
    reset_custom_colors fw1 s = reset_custom_colors fw2 s := by
  unfold reset_custom_colors
  simp only [set_region_color_fw fw1 fw2]

theorem set_keyboard_brightness_fw (fw1 fw2 : Firmware) (b : Nat) (s : Driver) :
    set_keyboard_brightness fw1 b s = set_keyboard_brightness fw2 b s := by
  rw [set_keyboard_brightness_eq, set_keyboard_brightness_eq]

theorem set_keyboard_mode_fw (fw1 fw2 : Firmware) (mode : Nat) (s : Driver) :
    set_keyboard_mode fw1 mode s = set_keyboard_mode fw2 mode s := by
  unfold set_keyboard_mode
  simp only [wmi_evaluate_wmbb_method_snd, reset_custom_colors_fw fw1 fw2,
    set_keyboard_brightness_fw fw1 fw2]

theorem set_mode_desc_loop_fw (fw1 fw2 : Firmware) (buf : List Nat) (count : Nat)
    (names : List String) (m : Nat) (s : Driver) :
    set_mode_desc_loop fw1 buf count m names s = set_mode_desc_loop fw2 buf count m names s := by
  induction names generalizing m with
  | nil => rfl
  | cons name rest ih =>
    unfold set_mode_desc_loop
    rw [set_keyboard_mode_fw fw1 fw2, ih (m + 1)]

theorem dev_attr_store_fw (fw1 fw2 : Firmware) (a : Attr) (buf : List Nat) (s : Driver) :
    dev_attr_store fw1 a buf s = dev_attr_store fw2 a buf s := by
  cases a <;>
    simp only [dev_attr_store, set_region_color_left, set_region_color_center,
      set_region_color_right, set_brightness, set_mode_integer, set_mode_desc,
      set_region_color_fw fw1 fw2, reset_custom_colors_fw fw1 fw2,
      set_keyboard_brightness_fw fw1 fw2, set_keyboard_mode_fw fw1 fw2,
      set_mode_desc_loop_fw fw1 fw2]

theorem mx5r2_wmi_init_fw (fw1 fw2 : Firmware) (g : Bool) (e : Option Int) (s : Driver) :
    mx5r2_wmi_init fw1 g e s = mx5r2_wmi_init fw2 g e s := by
  unfold mx5r2_wmi_init
  simp only [set_region_color_fw fw1 fw2, set_keyboard_brightness_fw fw1 fw2]

theorem region_channels_le (c : Nat) (hc : c < 2 ^ 24) :
    (region_channels c).1 ≤ 255 ∧ (region_channels c).2.1 ≤ 255 ∧
      (region_channels c).2.2 ≤ 255 := by
  unfold region_channels
  simp only [and_255, Nat.shiftRight_eq_div_pow]
  omega

theorem color_opcode_eq (region red green blue : Nat) (hreg : region < 3)
    (hr : red < 256) (hg : green < 256) (hb : blue < 256) :
    spec_color_opcode region red green blue =
      (240 + region) * 16777216 + blue * 65536 + red * 256 + green := by
  have e : 0xF0000000 ||| (region <<< 24) = 2 ^ 24 * (240 + region) := by
    interval_cases region <;> rfl
  have hp := pack_eq blue red green hr hg
  have hlt : blue * 65536 + red * 256 + green < 2 ^ 24 := by omega
  unfold spec_color_opcode
  rw [Nat.or_assoc (0xF0000000 ||| (region <<< 24)) (blue <<< 16) (red <<< 8),
    Nat.or_assoc (0xF0000000 ||| (region <<< 24)), hp, e,
    ← Nat.mul_add_lt_is_or hlt (240 + region)]
  omega

/-! ## Verified claims: input handling, firmware, initialisation, encoding -/

/-- C15, as stated, fails: "5 6" is not a single decimal integer, yet written to
`brightness` it changes the stored brightness from 255 to 5; "1 2 3 4" is not
exactly three integers, yet written to `left` it changes the stored color of
the left region and hands an opcode to the firmware. -/
theorem C15_trailing_text_is_accepted :
    spec_exactly_integers 1 (ascii "5 6") = false ∧
      compiled_defaults.keyboard_brightness = 255 ∧
      (set_brightness fw_ok (ascii "5 6") compiled_defaults).keyboard_brightness = 5 ∧
      spec_exactly_integers 3 (ascii "1 2 3 4") = false ∧
      compiled_defaults.keyboard_colors.left = 0x0000FF ∧
      (set_region_color_left fw_ok (ascii "1 2 3 4") compiled_defaults).keyboard_colors.left =
        0x010203 ∧
      (set_region_color_left fw_ok (ascii "1 2 3 4") compiled_defaults).wmi_log =
        [(SET_KB_LED, 0xF0030102)] := by
  decide

/-- C15, amended: a write to `brightness` whose text does not start, after white
space, with a decimal integer leaves the whole driver state as it was, and a
write to the attribute of a region whose text does not start with three decimal
integers, each possibly preceded by white space, leaves the whole driver state
as it was: the stored brightness, the stored colors and the mode are unchanged
and nothing is handed to the firmware.  A decimal integer is an optional `-`
followed by one or more digits; both conditions are conditions on the text. -/
theorem C15_unparsable_write_is_noop (fw : Firmware) (s : Driver) (r : Nat)
    (buf1 buf3 : List Nat) (h1 : spec_starts_with_integer buf1 = false)
    (h3 : spec_starts_with_integers 3 buf3 = false) :
    set_brightness fw buf1 s = s ∧ set_region_color_attr fw r buf3 s = s :=
  ⟨set_brightness_of_no_integer fw buf1 s h1,
    set_region_color_attr_of_no_three_integers fw r buf3 s h3⟩

/-- Witness of the amended C15: "abc" written to `brightness`, and the two
numbers "10 20" written to `left`. -/
theorem C15_witness :
    (spec_starts_with_integer (ascii "abc") = false ∧
        spec_starts_with_integers 3 (ascii "10 20") = false) ∧
      set_brightness fw_ok (ascii "abc") compiled_defaults = compiled_defaults ∧
      set_region_color_attr fw_ok KB_REGION_LEFT (ascii "10 20") compiled_defaults =
        compiled_defaults :=
  ⟨by decide,
    C15_unparsable_write_is_noop fw_ok compiled_defaults KB_REGION_LEFT (ascii "abc")
      (ascii "10 20") (by decide) (by decide)⟩

/-- C16: fire and forget.  For every setter and every input, the resulting
driver state, with the sequence of opcodes handed over, is the same for any two
firmwares, whatever each call returns; the same holds for every attribute
write and for module initialisation.  A failing call is reported by the return
code `-5` of `wmi_evaluate_wmbb_method` only, and the call is recorded all the same. -/
theorem C16_state_independent_of_firmware (fw1 fw2 : Firmware) (s : Driver)
    (region red green blue brightness mode arg : Nat) (a : Attr) (buf : List Nat) :
    set_region_color fw1 region red green blue s =
        set_region_color fw2 region red green blue s ∧
      set_keyboard_brightness fw1 brightness s = set_keyboard_brightness fw2 brightness s ∧
      set_keyboard_mode fw1 mode s = set_keyboard_mode fw2 mode s ∧
      dev_attr_store fw1 a buf s = dev_attr_store fw2 a buf s ∧
      mx5r2_wmi_init fw1 true none s = mx5r2_wmi_init fw2 true none s ∧
      (wmi_evaluate_wmbb_method fw_fail SET_KB_LED arg false s).1.1 = -5 ∧
      (wmi_evaluate_wmbb_method fw_ok SET_KB_LED arg false s).1.1 = 0 ∧
      (wmi_evaluate_wmbb_method fw_fail SET_KB_LED arg false s).2 =
        (wmi_evaluate_wmbb_method fw_ok SET_KB_LED arg false s).2 :=
  ⟨set_region_color_fw fw1 fw2 region red green blue s,
    set_keyboard_brightness_fw fw1 fw2 brightness s,
    set_keyboard_mode_fw fw1 fw2 mode s,
    dev_attr_store_fw fw1 fw2 a buf s,
    mx5r2_wmi_init_fw fw1 fw2 true none s,
    rfl, rfl,
    by rw [wmi_evaluate_wmbb_method_snd, wmi_evaluate_wmbb_method_snd]⟩

/-- C17, as stated, fails: after `mx5r2_wmi_init` on a platform with the firmware
interface, the left region is not blue `0x0000FF` but red `0xFF0000`, and the
center region is green `0x00FF00`. -/
theorem C17_init_overrides_blue_default :
    (mx5r2_wmi_init fw_ok true none compiled_defaults).1 = 0 ∧
      (mx5r2_wmi_init fw_ok true none compiled_defaults).2.keyboard_colors.left ≠ 0x0000FF ∧
      (mx5r2_wmi_init fw_ok true none compiled_defaults).2.keyboard_colors.center ≠
        0x0000FF := by
  decide

/-- C17, amended: the compiled-in values are blue `0x0000FF` for all three regions,
brightness 255 and mode Custom; after `mx5r2_wmi_init` on a platform with the
firmware interface the state is left red `0xFF0000`, center green `0x00FF00`,
right blue `0x0000FF`, brightness 255 and mode Custom, and the four opcodes for
these values have been handed to the firmware. -/
theorem C17_state_after_init (fw : Firmware) :
    compiled_defaults =
        { keyboard_mode := KB_MODE_CUSTOM
          keyboard_colors := { left := 0x0000FF, center := 0x0000FF, right := 0x0000FF }
          keyboard_brightness := 255
          wmi_log := [] } ∧
      mx5r2_wmi_init fw true none compiled_defaults =
        (0,
          { keyboard_mode := KB_MODE_CUSTOM
            keyboard_colors := { left := 0xFF0000, center := 0x00FF00, right := 0x0000FF }
            keyboard_brightness := 255
            wmi_log := [(SET_KB_LED, 0xF000FF00), (SET_KB_LED, 0xF10000FF),
              (SET_KB_LED, 0xF2FF0000), (SET_KB_LED, 0xF40000FF)] }) := by
  refine ⟨rfl, ?_⟩
  rw [mx5r2_wmi_init_fw fw fw_ok]
  decide

/-- C18: reachable-state invariant.  In every reachable state each stored color
is below `2 ^ 24`, so that every channel a region getter prints is in [0,255],
and the stored mode is one of the eight valid modes, so that `get_mode_desc`
prints the name of the mode and a newline and never the empty text. -/
theorem C18_reachable_state_invariant (s : Driver) (hs : Reachable s) :
    s.keyboard_colors.left < 2 ^ 24 ∧ s.keyboard_colors.center < 2 ^ 24 ∧
      s.keyboard_colors.right < 2 ^ 24 ∧
      (∀ r, (region_channels (region_color s r)).1 ≤ 255 ∧
        (region_channels (region_color s r)).2.1 ≤ 255 ∧
        (region_channels (region_color s r)).2.2 ≤ 255) ∧
      s.keyboard_mode < NUMBER_OF_KEYBOARD_MODES ∧
      get_mode_desc s = keyboard_mode_description.getD s.keyboard_mode "" ++ "\n" ∧
      get_mode_desc s ≠ "" := by
  obtain ⟨⟨hl, hc, hr⟩, _, hm⟩ := reachable_inv s hs
  have h8 : s.keyboard_mode < 8 := hm
  have hd := get_mode_desc_of_mode s h8
  refine ⟨hl, hc, hr, ?_, hm, hd, ?_⟩
  · intro r
    apply region_channels_le
    unfold region_color
    split_ifs <;> assumption
  · rw [hd]
    generalize s.keyboard_mode = m at h8
    interval_cases m <;> decide

/-- Witness of C18: the state after initialisation, a write of "300 -1 7" to
`left` and a write of "260" to `mode`. -/
theorem C18_witness :
    Reachable (dev_attr_store fw_ok Attr.mode (ascii "260")
        (dev_attr_store fw_ok Attr.left (ascii "300 -1 7")
          (mx5r2_wmi_init fw_ok true none compiled_defaults).2)) ∧
      (dev_attr_store fw_ok Attr.mode (ascii "260")
        (dev_attr_store fw_ok Attr.left (ascii "300 -1 7")
          (mx5r2_wmi_init fw_ok true none compiled_defaults).2)).keyboard_colors.left
        < 2 ^ 24 ∧
      (dev_attr_store fw_ok Attr.mode (ascii "260")
        (dev_attr_store fw_ok Attr.left (ascii "300 -1 7")
          (mx5r2_wmi_init fw_ok true none compiled_defaults).2)).keyboard_mode
        < NUMBER_OF_KEYBOARD_MODES :=
  ⟨Reachable.store fw_ok Attr.mode (ascii "260") _
      (Reachable.store fw_ok Attr.left (ascii "300 -1 7") _
        (Reachable.init fw_ok true none compiled_defaults Reachable.boot)),
    (C18_reachable_state_invariant _
      (Reachable.store fw_ok Attr.mode (ascii "260") _
        (Reachable.store fw_ok Attr.left (ascii "300 -1 7") _
          (Reachable.init fw_ok true none compiled_defaults Reachable.boot)))).1,
    (C18_reachable_state_invariant _
      (Reachable.store fw_ok Attr.mode (ascii "260") _
        (Reachable.store fw_ok Attr.left (ascii "300 -1 7") _
          (Reachable.init fw_ok true none compiled_defaults Reachable.boot)))).2.2.2.2.1⟩

/-- C19: the command encoding is unambiguous.  On valid inputs (region 0, 1 or
2, channels in [0,255]) equal Color-set opcodes, and equal firmware logs of
`set_region_color` from one state, come from equal tuples; a Color-set opcode
is never a Brightness-set opcode of a brightness in [0,255], never the reset
opcode `0x10000000` and never the constant of a mode other than Custom; those
seven constants, which are the ones of the specification, are pairwise distinct
and differ from the reset opcode. -/
theorem C19_encoding_unambiguous (fw : Firmware) (s : Driver)
    (r1 red1 green1 blue1 r2 red2 green2 blue2 b m1 m2 : Nat)
    (h1 : r1 < KB_REGION_UNKNOWN) (hr1 : red1 ≤ 255) (hg1 : green1 ≤ 255) (hb1 : blue1 ≤ 255)
    (h2 : r2 < KB_REGION_UNKNOWN) (hr2 : red2 ≤ 255) (hg2 : green2 ≤ 255) (hb2 : blue2 ≤ 255)
    (hb : b ≤ 255)
    (hm1 : m1 < NUMBER_OF_KEYBOARD_MODES) (hc1 : m1 ≠ KB_MODE_CUSTOM)
    (hm2 : m2 < NUMBER_OF_KEYBOARD_MODES) (hc2 : m2 ≠ KB_MODE_CUSTOM) :
    (spec_color_opcode r1 red1 green1 blue1 = spec_color_opcode r2 red2 green2 blue2 →
        r1 = r2 ∧ red1 = red2 ∧ green1 = green2 ∧ blue1 = blue2) ∧
      ((set_region_color fw r1 red1 green1 blue1 s).wmi_log =
          (set_region_color fw r2 red2 green2 blue2 s).wmi_log →
        r1 = r2 ∧ red1 = red2 ∧ green1 = green2 ∧ blue1 = blue2) ∧
      spec_color_opcode r1 red1 green1 blue1 ≠ spec_brightness_opcode b ∧
      spec_color_opcode r1 red1 green1 blue1 ≠ 0x10000000 ∧
      spec_color_opcode r1 red1 green1 blue1 ≠ cmds.getD m1 0 ∧
      (cmds.getD m1 0 = cmds.getD m2 0 → m1 = m2) ∧
      cmds.getD m1 0 ≠ 0x10000000 ∧
      spec_mode_opcode m1 = some (cmds.getD m1 0) := by
  have k1 : r1 < 3 := h1
  have k2 : r2 < 3 := h2
  have e1 := color_opcode_eq r1 red1 green1 blue1 k1 (by omega) (by omega) (by omega)
  have e2 := color_opcode_eq r2 red2 green2 blue2 k2 (by omega) (by omega) (by omega)
  have eb : spec_brightness_opcode b = 0xF4000000 + b := brightness_opcode_eq b (by omega)
  have n1 : m1 < 8 := hm1
  have n2 : m2 < 8 := hm2
  have inj : spec_color_opcode r1 red1 green1 blue1 = spec_color_opcode r2 red2 green2 blue2 →
      r1 = r2 ∧ red1 = red2 ∧ green1 = green2 ∧ blue1 = blue2 := by
    intro h
    rw [e1, e2] at h
    omega
  have hcm : spec_color_opcode r1 red1 green1 blue1 ≠ cmds.getD m1 0 := by
    rw [e1]
    interval_cases m1 <;> simp [cmds] <;> omega
  refine ⟨inj, ?_, ?_, ?_, hcm, ?_, ?_, ?_⟩
  · intro h
    rw [set_region_color_valid fw r1 red1 green1 blue1 s k1 (by omega) (by omega) (by omega),
      set_region_color_valid fw r2 red2 green2 blue2 s k2 (by omega) (by omega) (by omega)] at h
    simp only [List.append_cancel_left_eq, List.cons.injEq, Prod.mk.injEq, and_true,
      true_and] at h
    exact inj h
  · rw [e1, eb]; omega
  · rw [e1]; omega
  · unfold KB_MODE_CUSTOM at hc1 hc2
    interval_cases m1 <;> interval_cases m2 <;> simp [cmds] at hc1 hc2 ⊢
  · unfold KB_MODE_CUSTOM at hc1
    interval_cases m1 <;> simp [cmds] at hc1 ⊢
  · unfold KB_MODE_CUSTOM at hc1
    interval_cases m1 <;> simp [cmds, spec_mode_opcode, KB_MODE_RANDOM_COLOR, KB_MODE_CUSTOM,
      KB_MODE_BREATHE, KB_MODE_CYCLE, KB_MODE_WAVE, KB_MODE_DANCE, KB_MODE_TEMPO,
      KB_MODE_FLASH] at hc1 ⊢

/-- Witness of C19: two colors of the left and right regions, brightness 200,
modes Breathe and Flash. -/
theorem C19_witness :
    (KB_REGION_LEFT < KB_REGION_UNKNOWN ∧ KB_REGION_RIGHT < KB_REGION_UNKNOWN ∧
        KB_MODE_BREATHE ≠ KB_MODE_CUSTOM ∧ KB_MODE_FLASH ≠ KB_MODE_CUSTOM) ∧
      spec_color_opcode KB_REGION_LEFT 1 2 3 ≠ spec_brightness_opcode 200 ∧
      spec_color_opcode KB_REGION_LEFT 1 2 3 ≠ 0x10000000 ∧
      spec_color_opcode KB_REGION_LEFT 1 2 3 ≠ cmds.getD KB_MODE_BREATHE 0 ∧
      (cmds.getD KB_MODE_BREATHE 0 = cmds.getD KB_MODE_FLASH 0 →
        KB_MODE_BREATHE = KB_MODE_FLASH) ∧
      cmds.getD KB_MODE_BREATHE 0 ≠ 0x10000000 ∧
      spec_mode_opcode KB_MODE_BREATHE = some (cmds.getD KB_MODE_BREATHE 0) :=
  ⟨by decide,
    (C19_encoding_unambiguous fw_ok compiled_defaults KB_REGION_LEFT 1 2 3
      KB_REGION_RIGHT 4 5 6 200 KB_MODE_BREATHE KB_MODE_FLASH
      (by decide) (by decide) (by decide) (by decide) (by decide) (by decide) (by decide)
      (by decide) (by decide) (by decide) (by decide) (by decide) (by decide)).2.2⟩

end Mx5r2
